import Mathlib

/-!
Verification development for the `eml-to-pdf` converter
(`src/eml_to_pdf/converter.py`).  The Python parsing and composition layer
is embedded shallowly: the regular-expression based extraction is modelled
by a small backtracking matcher with Python `re` semantics (leftmost match,
greedy/lazy quantifiers, capture groups, lookahead, IGNORECASE / DOTALL),
and each pattern of the source is transcribed into the matcher's syntax.
-/

namespace Eml

/-! ## Python string primitives -/

/-- Whitespace characters recognised by Python `str.strip()` and `\s`. -/
def pyWs (c : Char) : Bool :=
  c = ' ' || c = '\t' || c = '\n' || c = '\r' || c = '\x0b' || c = '\x0c'

/-- `str.strip(chars)`: drop characters satisfying `p` from both ends. -/
def stripSet (p : Char → Bool) (s : String) : String :=
  String.mk (((s.data.dropWhile p).reverse.dropWhile p).reverse)

/-- Python `str.strip()` (default whitespace). -/
def pstrip (s : String) : String := stripSet pyWs s

/-- Python `str.strip(' ()')` as used on derived city labels. -/
def stripParenSpace (s : String) : String :=
  stripSet (fun c => c = ' ' || c = '(' || c = ')') s

/-- Python `x or 'N/A'` on strings: empty is falsy. -/
def orNA (s : String) : String := if s = "" then "N/A" else s

/-- The apostrophe character (escaped by `html.escape`). -/
def aposChar : Char := Char.ofNat 39

/-- Per-character translation of Python `html.escape(s, quote=True)`. -/
def escChar (c : Char) : String :=
  if c = '&' then "&amp;"
  else if c = '<' then "&lt;"
  else if c = '>' then "&gt;"
  else if c = '"' then "&quot;"
  else if c = aposChar then "&#x27;"
  else String.mk [c]

/-- Python `html.escape(s, quote=True)`. -/
def htmlEscape (s : String) : String := String.join (s.data.map escChar)

/-- Executable substring test, mirroring Python `needle in hay`; written
with the bare recursor so the kernel evaluates it iteratively on long
lists: `containsB hay n` is `n.isEmpty` for empty `hay` and otherwise
`n.isPrefixOf hay || containsB hay.tail n`. -/
def containsB (hay needle : List Char) : Bool :=
  List.rec (motive := fun _ => Bool) needle.isEmpty
    (fun h t ih => needle.isPrefixOf (h :: t) || ih) hay

/-- Substring relation on strings (used to state facts about rendered
documents). -/
def sContains (hay needle : String) : Prop := containsB hay.data needle.data = true

instance (hay needle : String) : Decidable (sContains hay needle) := by
  unfold sContains; infer_instance

/-- Python `needle in hay` on strings. -/
def pyIn (needle hay : String) : Bool := containsB hay.data needle.data

/-- Count non-overlapping occurrences (used only to state facts about
rendered documents): at each position, a prefix occurrence of `n` is
counted and skipped, otherwise the scan advances one character; the
first argument is fuel (one list element per scan step suffices).
Written with the bare recursor so the kernel evaluates it iteratively on
long lists. -/
def countFrom (fuel : List Char) (hay needle : List Char) : Nat :=
  List.rec (motive := fun _ => List Char → Nat) (fun _ => 0)
    (fun _ _ ih l =>
      match l with
      | [] => 0
      | h :: t =>
        if needle.isPrefixOf (h :: t) then 1 + ih ((h :: t).drop needle.length)
        else ih t)
    fuel hay

/-- Count non-overlapping occurrences of `needle` in `hay`. -/
def countOccur (hay needle : String) : Nat :=
  countFrom hay.data hay.data needle.data

/-- Replace all non-overlapping occurrences, leftmost first
(Python `str.replace`). -/
def replaceFrom : Nat → List Char → List Char → List Char → List Char
  | 0, h, _, _ => h
  | _ + 1, [], _, _ => []
  | fuel + 1, h :: t, old, new =>
    if old.isPrefixOf (h :: t) then new ++ replaceFrom fuel ((h :: t).drop old.length) old new
    else h :: replaceFrom fuel t old new

/-- Python `s.replace(old, new)` (for non-empty `old`). -/
def pyReplace (s old new : String) : String :=
  String.mk (replaceFrom (s.data.length + 1) s.data old.data new.data)

/-- `str.split(sep)` for a non-empty separator (Python semantics, kept
on character lists so the kernel can evaluate it). -/
def pySplitAux (sep : List Char) : Nat → List Char → List Char → List (List Char)
  | 0, acc, _ => [acc.reverse]
  | _ + 1, acc, [] => [acc.reverse]
  | fuel + 1, acc, h :: t =>
    if sep.isPrefixOf (h :: t) then
      acc.reverse :: pySplitAux sep fuel [] ((h :: t).drop sep.length)
    else pySplitAux sep fuel (h :: acc) t

/-- Python `s.split(sep)` (non-empty `sep`). -/
def pySplitOn (s sep : String) : List String :=
  (pySplitAux sep.data (s.data.length + 1) [] s.data).map String.mk

/-- Python `c in s` for a character. -/
def pyContainsChar (s : String) (c : Char) : Bool := s.data.any (fun x => x = c)

/-- Python `str.title()` on ASCII text: a letter is uppercased when the
preceding character is not a letter, lowercased otherwise. -/
def pyTitleAux : Bool → List Char → List Char
  | _, [] => []
  | prevAlpha, c :: t =>
    (if c.isAlpha then (if prevAlpha then c.toLower else c.toUpper) else c) ::
      pyTitleAux c.isAlpha t

/-- Python `str.title()`. -/
def pyTitle (s : String) : String := String.mk (pyTitleAux false s.data)

/-- `re.sub(r'\s+', ' ', s)`: collapse whitespace runs to single spaces. -/
def squeezeWsAux : Bool → List Char → List Char
  | _, [] => []
  | inWs, c :: t =>
    if pyWs c then (if inWs then [] else [' ']) ++ squeezeWsAux true t
    else c :: squeezeWsAux false t

/-- `re.sub(r'\s+', ' ', s)`. -/
def squeezeWs (s : String) : String := String.mk (squeezeWsAux false s.data)

/-- Uppercase hex digit test (`[0-9A-F]`). -/
def isHexU (c : Char) : Bool := c.isDigit || ('A' ≤ c && c ≤ 'F')

/-- Value of an uppercase hex digit. -/
def hexValU (c : Char) : Nat := if c.isDigit then c.toNat - 48 else c.toNat - 55

/-- `re.sub(r'=([0-9A-F]{2})', lambda m: chr(int(m.group(1), 16)), s)`:
replace `=XX` hex escapes by the corresponding character. -/
def subHexAux : List Char → List Char
  | '=' :: a :: b :: t =>
    if isHexU a && isHexU b then Char.ofNat (16 * hexValU a + hexValU b) :: subHexAux t
    else '=' :: subHexAux (a :: b :: t)
  | c :: t => c :: subHexAux t
  | [] => []

/-- Residual `=XX` hex-escape substitution. -/
def subHexEscapes (s : String) : String := String.mk (subHexAux s.data)

/-- Python `str.upper()` on ASCII text. -/
def pyUpper (s : String) : String := String.mk (s.data.map Char.toUpper)

/-- First `n` characters of a string (`s[:n]`). -/
def strTake (s : String) (n : Nat) : String := String.mk (s.data.take n)

/-! ## A backtracking regex matcher with Python `re` semantics -/

/-- One item of a character class. -/
inductive CItem where
  | ch (c : Char)
  | rng (lo hi : Char)
  | dig
  | spc
  | wrd
deriving DecidableEq

/-- Does a class item match a character? -/
def citemMatch : CItem → Char → Bool
  | .ch c, x => x = c
  | .rng lo hi, x => lo ≤ x && x ≤ hi
  | .dig, x => x.isDigit
  | .spc, x => pyWs x
  | .wrd, x => x.isAlpha || x.isDigit || x = '_'

/-- Membership of a character in a class. -/
def inClass (items : List CItem) (x : Char) : Bool := items.any (fun i => citemMatch i x)

/-- Class match with optional negation and case folding (IGNORECASE). -/
def clsMatch (ci neg : Bool) (items : List CItem) (x : Char) : Bool :=
  let pos := inClass items x || (ci && (inClass items x.toLower || inClass items x.toUpper))
  if neg then !pos else pos

/-- Regular expressions, as used by the converter's patterns. -/
inductive RE where
  | eps
  | lit (c : Char)
  | cls (neg : Bool) (items : List CItem)
  | dot
  | seq (a b : RE)
  | alt (a b : RE)
  | rep (r : RE) (lo : Nat) (hi : Option Nat) (lazy : Bool)
  | grp (i : Nat) (r : RE)
  | look (r : RE)
  | wb
  | eos
deriving DecidableEq

/-- Matcher flags: `re.IGNORECASE` and `re.DOTALL`. -/
structure MFlags where
  ci : Bool := false
  dotall : Bool := false

/-- Capture environment: group index, captured characters (latest first). -/
abbrev Caps := List (Nat × List Char)

/-- Record a capture. -/
def setCap (i : Nat) (v : List Char) (caps : Caps) : Caps := (i, v) :: caps

/-- Look up the most recent capture of a group. -/
def getCap (caps : Caps) (i : Nat) : Option (List Char) :=
  match caps.find? (fun p => p.fst = i) with
  | some p => some p.snd
  | none => none

/-- Word character for `\b`. -/
def isWordChar (c : Char) : Bool := c.isAlpha || c.isDigit || c = '_'

/-- `\b`: the previous and next characters disagree on wordness. -/
def atWordBoundary (prev : Option Char) (s : List Char) : Bool :=
  (match prev with | some c => isWordChar c | none => false) !=
    (match s with | c :: _ => isWordChar c | [] => false)

/-- Case-folding character comparison for literals. -/
def charEqCI (ci : Bool) (x c : Char) : Bool := x = c || (ci && x.toLower = c.toLower)

/-- CPS backtracking matcher.  Alternatives are explored in Python's
priority order (left alternative first, greedy repetition longest first,
lazy repetition shortest first); the first success wins.  `prev` is the
character before the current position (for `\b`), `fuel` bounds the depth
of one backtracking path. -/
def mtch (fl : MFlags) : Nat → RE → List Char → Option Char → Caps →
    (List Char → Option Char → Caps → Option (List Char × Caps)) → Option (List Char × Caps)
  | 0, _, _, _, _, _ => none
  | Nat.succ fuel, r, s, prev, caps, k =>
    match r with
    | .eps => k s prev caps
    | .lit c =>
      match s with
      | [] => none
      | x :: xs => if charEqCI fl.ci x c then k xs (some x) caps else none
    | .cls neg items =>
      match s with
      | [] => none
      | x :: xs => if clsMatch fl.ci neg items x then k xs (some x) caps else none
    | .dot =>
      match s with
      | [] => none
      | x :: xs => if x = '\n' && !fl.dotall then none else k xs (some x) caps
    | .seq a b => mtch fl fuel a s prev caps (fun s2 p2 c2 => mtch fl fuel b s2 p2 c2 k)
    | .alt a b =>
      match mtch fl fuel a s prev caps k with
      | some res => some res
      | none => mtch fl fuel b s prev caps k
    | .rep r0 lo hi lazy =>
      match lo with
      | Nat.succ lo2 =>
        mtch fl fuel r0 s prev caps (fun s2 p2 c2 =>
          mtch fl fuel (.rep r0 lo2 (hi.map Nat.pred) lazy) s2 p2 c2 k)
      | 0 =>
        match hi with
        | some 0 => k s prev caps
        | _ =>
          if lazy then
            match k s prev caps with
            | some res => some res
            | none =>
              mtch fl fuel r0 s prev caps (fun s2 p2 c2 =>
                mtch fl fuel (.rep r0 0 (hi.map Nat.pred) lazy) s2 p2 c2 k)
          else
            match mtch fl fuel r0 s prev caps (fun s2 p2 c2 =>
                mtch fl fuel (.rep r0 0 (hi.map Nat.pred) lazy) s2 p2 c2 k) with
            | some res => some res
            | none => k s prev caps
    | .grp i r0 =>
      mtch fl fuel r0 s prev caps (fun s2 p2 c2 =>
        k s2 p2 (setCap i (s.take (s.length - s2.length)) c2))
    | .look r0 =>
      match mtch fl fuel r0 s prev caps (fun s2 _ c2 => some (s2, c2)) with
      | some (_, c2) => k s prev c2
      | none => none
    | .wb => if atWordBoundary prev s then k s prev caps else none
    | .eos => if s = [] || s = ['\n'] then k s prev caps else none

/-- Number of syntax nodes of a pattern (for the fuel bound). -/
def reSize : RE → Nat
  | .eps | .lit _ | .cls _ _ | .dot | .wb | .eos => 1
  | .seq a b | .alt a b => reSize a + reSize b + 1
  | .rep r _ _ _ => reSize r + 1
  | .grp _ r => reSize r + 1
  | .look r => reSize r + 1

/-- Fuel that is ample for one backtracking path on input `s`. -/
def reFuel (r : RE) (s : List Char) : Nat := (s.length + 4) * (reSize r + 4) * 4

/-- Result of a successful match. -/
structure MatchRes where
  matched : List Char
  rest : List Char
  caps : Caps
deriving DecidableEq

/-- Attempt a match at the current position. -/
def tryAt (fl : MFlags) (r : RE) (s : List Char) (prev : Option Char) : Option MatchRes :=
  match mtch fl (reFuel r s) r s prev [] (fun s2 _ c2 => some (s2, c2)) with
  | some (rest, caps) => some ⟨s.take (s.length - rest.length), rest, caps⟩
  | none => none

/-- Scan left to right for the first position with a match (`re.search`). -/
def searchAux (fl : MFlags) (r : RE) : List Char → Option Char → Option MatchRes
  | [], prev => tryAt fl r [] prev
  | c :: cs, prev =>
    match tryAt fl r (c :: cs) prev with
    | some m => some m
    | none => searchAux fl r cs (some c)

/-- `re.search(pattern, s)`. -/
def reSearch (fl : MFlags) (r : RE) (s : String) : Option MatchRes :=
  searchAux fl r s.data none

/-- `match.group(i)`, `None` when the group did not participate. -/
def mGroup (m : MatchRes) (i : Nat) : Option String := (getCap m.caps i).map String.mk

/-- `match.group(i)` defaulted to the empty string. -/
def mGroupD (m : MatchRes) (i : Nat) : String := String.mk ((getCap m.caps i).getD [])

/-- Successive non-overlapping matches (`re.finditer`). -/
def finditerAux (fl : MFlags) (r : RE) : Nat → List Char → Option Char → List MatchRes
  | 0, _, _ => []
  | fuel + 1, s, prev =>
    match searchAux fl r s prev with
    | none => []
    | some m =>
      match m.matched with
      | [] =>
        m :: (match m.rest with
          | [] => []
          | c :: cs => finditerAux fl r fuel cs (some c))
      | _ => m :: finditerAux fl r fuel m.rest m.matched.getLast?

/-- `re.finditer(pattern, s)`. -/
def reFinditer (fl : MFlags) (r : RE) (s : String) : List MatchRes :=
  finditerAux fl r (s.data.length + 1) s.data none

/-! ## Pattern construction helpers -/

/-- Sequence a list of patterns. -/
def reSeq (l : List RE) : RE := l.foldr RE.seq RE.eps

/-- Literal string pattern. -/
def lits (s : String) : RE := reSeq (s.data.map RE.lit)

/-- `r*` -/
def star0 (r : RE) : RE := .rep r 0 none false

/-- `r*?` -/
def star0L (r : RE) : RE := .rep r 0 none true

/-- `r+` -/
def plus1 (r : RE) : RE := .rep r 1 none false

/-- `r+?` -/
def plus1L (r : RE) : RE := .rep r 1 none true

/-- `r?` -/
def opt1 (r : RE) : RE := .rep r 0 (some 1) false

/-- `r{n}` -/
def repN (r : RE) (n : Nat) : RE := .rep r n (some n) false

/-- `r{m,n}` -/
def repMN (r : RE) (m n : Nat) : RE := .rep r m (some n) false

/-- Positive character class. -/
def cls1 (l : List CItem) : RE := .cls false l

/-- Negated character class. -/
def ncls (l : List CItem) : RE := .cls true l

/-- `\s` -/
def wsS : RE := cls1 [.spc]

/-- `\d` -/
def digS : RE := cls1 [.dig]

/-- `A-Z` as a class item. -/
def rAZ : CItem := .rng 'A' 'Z'

/-- `0-9` as a class item. -/
def r09 : CItem := .rng '0' '9'

/-! ## The converter's patterns, transcribed from `converter.py` -/

/-- `([A-Z\s/]+?)\s+\d{1,2}[A-Z]{3}\d{4}` (passenger name, line 274). -/
def namePat : RE := reSeq [.grp 1 (plus1L (cls1 [rAZ, .spc, .ch '/'])), plus1 wsS,
  repMN digS 1 2, repN (cls1 [rAZ]) 3, repN digS 4]

/-- `=\?UTF-8\?B\?([^?]+)\?=` (encoded subject words, line 265). -/
def encodedWordPat : RE := reSeq [lits "=?UTF-8?B?", .grp 1 (plus1 (ncls [.ch '?'])), lits "?="]

/-- `BOOKING REF:\s*([A-Z0-9]{6,8})` (line 289). -/
def bookingRefPat1 : RE := reSeq [lits "BOOKING REF:", star0 wsS,
  .grp 1 (repMN (cls1 [rAZ, r09]) 6 8)]

/-- `FLIGHT BOOKING REF:\s*[A-Z]{2}/([A-Z0-9]{6,8})` (line 290). -/
def bookingRefPat2 : RE := reSeq [lits "FLIGHT BOOKING REF:", star0 wsS,
  repN (cls1 [rAZ]) 2, .lit '/', .grp 1 (repMN (cls1 [rAZ, r09]) 6 8)]

/-- `REF:\s*([A-Z0-9]{6,8})` (line 291). -/
def bookingRefPat3 : RE := reSeq [lits "REF:", star0 wsS, .grp 1 (repMN (cls1 [rAZ, r09]) 6 8)]

/-- `\d{1,2}\s+[A-Z]+\s+\d{4}` (booking-date body). -/
def dateBody : RE := reSeq [repMN digS 1 2, plus1 wsS, plus1 (cls1 [rAZ]), plus1 wsS, repN digS 4]

/-- `DATE:\s*(\d{1,2}\s+[A-Z]+\s+\d{4})` (line 301). -/
def datePat1 : RE := reSeq [lits "DATE:", star0 wsS, .grp 1 dateBody]

/-- `DATE:\s*(\d{1,2}/\d{1,2}/\d{4})` (line 302). -/
def datePat2 : RE := reSeq [lits "DATE:", star0 wsS,
  .grp 1 (reSeq [repMN digS 1 2, .lit '/', repMN digS 1 2, .lit '/', repN digS 4])]

/-- `(\d{1,2}\s+[A-Z]+\s+\d{4})` (line 303). -/
def datePat3 : RE := .grp 1 dateBody

/-- `GROUP\s+([^\r\n]+)` (line 313). -/
def groupPat1 : RE := reSeq [lits "GROUP", plus1 wsS, .grp 1 (plus1 (ncls [.ch '\r', .ch '\n']))]

/-- `GROUP:\s*([^\r\n]+)` (line 314). -/
def groupPat2 : RE := reSeq [lits "GROUP:", star0 wsS, .grp 1 (plus1 (ncls [.ch '\r', .ch '\n']))]

/-- `TRIP(?:\s+ID)?\s*:\s*([^\r\n]+)` (line 315). -/
def groupPat3 : RE := reSeq [lits "TRIP", opt1 (reSeq [plus1 wsS, lits "ID"]), star0 wsS,
  .lit ':', star0 wsS, .grp 1 (plus1 (ncls [.ch '\r', .ch '\n']))]

/-- `GROUP\s+BOOKING:\s*([^\r\n]+)` (line 316). -/
def groupPat4 : RE := reSeq [lits "GROUP", plus1 wsS, lits "BOOKING:", star0 wsS,
  .grp 1 (plus1 (ncls [.ch '\r', .ch '\n']))]

/-- `TICKET:\s*([A-Z0-9/\s]+?)\s+FOR\s` (line 326). -/
def ticketPat1 : RE := reSeq [lits "TICKET:", star0 wsS,
  .grp 1 (plus1L (cls1 [rAZ, r09, .ch '/', .spc])), plus1 wsS, lits "FOR", wsS]

/-- `ETKT\s+\d+\s+(\d+)\s+FOR` (line 327). -/
def ticketPat2 : RE := reSeq [lits "ETKT", plus1 wsS, plus1 digS, plus1 wsS,
  .grp 1 (plus1 digS), plus1 wsS, lits "FOR"]

/-- `TICKET\s*[:\s]\s*([A-Z0-9/\s]+?)(?:\s+FOR|\r|\n)` (line 328). -/
def ticketPat3 : RE := reSeq [lits "TICKET", star0 wsS, cls1 [.ch ':', .spc], star0 wsS,
  .grp 1 (plus1L (cls1 [rAZ, r09, .ch '/', .spc])),
  .alt (reSeq [plus1 wsS, lits "FOR"]) (.alt (.lit '\r') (.lit '\n'))]

/-- `[A-Z0-9\s\-]+\s*-\s*[A-Z\s]+` (flight-section header body, line 345). -/
def fhdrBody : RE := reSeq [plus1 (cls1 [rAZ, r09, .spc, .ch '-']), star0 wsS, .lit '-',
  star0 wsS, plus1 (cls1 [rAZ, .spc])]

/-- The flight-section pattern of line 344: `FLIGHT\s+(<hdr>).*?` followed
by a lookahead for the next header, a terminal marker, or `$`. -/
def flightSecPat : RE := reSeq [lits "FLIGHT", plus1 wsS, .grp 1 fhdrBody, star0L .dot,
  .look (.alt (reSeq [lits "FLIGHT", plus1 wsS, fhdrBody])
    (.alt (reSeq [lits "FLIGHT(S)", plus1 wsS, lits "CALCULATED"])
      (.alt (reSeq [lits "GENERAL", plus1 wsS, lits "INFORMATION"])
        (.alt (reSeq [lits "FLIGHT", plus1 wsS, lits "TICKET"]) RE.eos))))]

/-- `FLIGHT\s+([A-Z]{2}\s*\d+)\s*-\s*([A-Z\s]+?)(?:\s+[A-Z]{3}\s+\d+\s+[A-Z]+\s+\d+)`
(line 358). -/
def flightHeaderPat1 : RE := reSeq [lits "FLIGHT", plus1 wsS,
  .grp 1 (reSeq [repN (cls1 [rAZ]) 2, star0 wsS, plus1 digS]), star0 wsS, .lit '-', star0 wsS,
  .grp 2 (plus1L (cls1 [rAZ, .spc])), plus1 wsS, repN (cls1 [rAZ]) 3, plus1 wsS, plus1 digS,
  plus1 wsS, plus1 (cls1 [rAZ]), plus1 wsS, plus1 digS]

/-- `FLIGHT\s+([A-Z]{2}\s*\d+)\s*-\s*([A-Z\s]+?)(?:\s+\w+\s+\d+)` (line 359). -/
def flightHeaderPat2 : RE := reSeq [lits "FLIGHT", plus1 wsS,
  .grp 1 (reSeq [repN (cls1 [rAZ]) 2, star0 wsS, plus1 digS]), star0 wsS, .lit '-', star0 wsS,
  .grp 2 (plus1L (cls1 [rAZ, .spc])), plus1 wsS, plus1 (cls1 [.wrd]), plus1 wsS, plus1 digS]

/-- `FLIGHT\s+([A-Z]{2}\s*\d+)\s*-\s*([A-Z\s]+)` (line 360). -/
def flightHeaderPat3 : RE := reSeq [lits "FLIGHT", plus1 wsS,
  .grp 1 (reSeq [repN (cls1 [rAZ]) 2, star0 wsS, plus1 digS]), star0 wsS, .lit '-', star0 wsS,
  .grp 2 (plus1 (cls1 [rAZ, .spc]))]

/-- `\d{1,2}\s+[A-Z]{3}\s+\d{2}:\d{2}` (combined date+time token). -/
def dtRe : RE := reSeq [repMN digS 1 2, plus1 wsS, repN (cls1 [rAZ]) 3, plus1 wsS,
  repN digS 2, .lit ':', repN digS 2]

/-- `[^,\(\r\n]+?` (city up to comma, parenthesis or line end). -/
def cityLazy : RE := plus1L (ncls [.ch ',', .ch '(', .ch '\r', .ch '\n'])

/-- `\(([^)]+)\)` capture body. -/
def parenBody : RE := plus1 (ncls [.ch ')'])

/-- Departure pattern 1 (line 372). -/
def depPat1 : RE := reSeq [lits "DEPARTURE:", star0 wsS, .grp 1 cityLazy,
  opt1 (reSeq [.lit ',', star0 wsS, .grp 2 (repN (cls1 [rAZ]) 2)]), star0 wsS,
  .lit '(', .grp 3 parenBody, .lit ')', star0 wsS, .grp 4 dtRe]

/-- Departure pattern 2 (line 373). -/
def depPat2 : RE := reSeq [lits "DEPARTURE:", star0 wsS, .grp 1 cityLazy, opt1 (.lit ','),
  star0 wsS, opt1 (.grp 2 (repN (cls1 [rAZ]) 2)), star0 wsS,
  .lit '(', .grp 3 parenBody, .lit ')', star0 wsS, .grp 4 dtRe]

/-- Departure pattern 3 (line 374). -/
def depPat3 : RE := reSeq [lits "DEPARTURE:", star0 wsS,
  .grp 1 (plus1L (ncls [.ch '(', .ch '\r', .ch '\n'])), star0 wsS,
  .lit '(', .grp 2 parenBody, .lit ')', star0 wsS, .grp 3 dtRe]

/-- Departure pattern 4 (line 375). -/
def depPat4 : RE := reSeq [lits "DEPARTURE:", star0 wsS,
  .grp 1 (plus1L (ncls [.ch '\r', .ch '\n'])), star0 wsS, .grp 2 dtRe]

/-- `(?:,\s*TERMINAL\s*\d+)?` (arrival patterns only). -/
def terminalOpt : RE := opt1 (reSeq [.lit ',', star0 wsS, lits "TERMINAL", star0 wsS, plus1 digS])

/-- Arrival pattern 1 (line 405). -/
def arrPat1 : RE := reSeq [lits "ARRIVAL:", star0 wsS, .grp 1 cityLazy,
  opt1 (reSeq [.lit ',', star0 wsS, .grp 2 (repN (cls1 [rAZ]) 2)]), star0 wsS,
  .lit '(', .grp 3 parenBody, .lit ')', terminalOpt, star0 wsS, .grp 4 dtRe]

/-- Arrival pattern 2 (line 406). -/
def arrPat2 : RE := reSeq [lits "ARRIVAL:", star0 wsS, .grp 1 cityLazy, opt1 (.lit ','),
  star0 wsS, opt1 (.grp 2 (repN (cls1 [rAZ]) 2)), star0 wsS,
  .lit '(', .grp 3 parenBody, .lit ')', terminalOpt, star0 wsS, .grp 4 dtRe]

/-- Arrival pattern 3 (line 407). -/
def arrPat3 : RE := reSeq [lits "ARRIVAL:", star0 wsS,
  .grp 1 (plus1L (ncls [.ch '(', .ch '\r', .ch '\n'])), star0 wsS,
  .lit '(', .grp 2 parenBody, .lit ')', terminalOpt, star0 wsS, .grp 3 dtRe]

/-- Arrival pattern 4 (line 408). -/
def arrPat4 : RE := reSeq [lits "ARRIVAL:", star0 wsS,
  .grp 1 (plus1L (ncls [.ch '\r', .ch '\n'])), star0 wsS, .grp 2 dtRe]

/-- `FLIGHT BOOKING REF:\s*([A-Z0-9/]+)` (line 439). -/
def refDetailPat1 : RE := reSeq [lits "FLIGHT BOOKING REF:", star0 wsS,
  .grp 1 (plus1 (cls1 [rAZ, r09, .ch '/']))]

/-- `BOOKING REF:\s*([A-Z0-9/]+)` (line 440). -/
def refDetailPat2 : RE := reSeq [lits "BOOKING REF:", star0 wsS,
  .grp 1 (plus1 (cls1 [rAZ, r09, .ch '/']))]

/-- `RESERVATION CONFIRMED,\s*(ECONOMY)\s*\(([^)]+)\)` (line 443). -/
def classPat1 : RE := reSeq [lits "RESERVATION CONFIRMED,", star0 wsS, .grp 1 (lits "ECONOMY"),
  star0 wsS, .lit '(', .grp 2 parenBody, .lit ')']

/-- `(BUSINESS|ECONOMY|FIRST)\s*\(([^)]+)\)` (line 444). -/
def classPat2 : RE := reSeq [.grp 1 (.alt (lits "BUSINESS") (.alt (lits "ECONOMY") (lits "FIRST"))),
  star0 wsS, .lit '(', .grp 2 parenBody, .lit ')']

/-- `(ECONOMY|BUSINESS|FIRST)\s+CLASS` (line 445). -/
def classPat3 : RE := reSeq [.grp 1 (.alt (lits "ECONOMY") (.alt (lits "BUSINESS") (lits "FIRST"))),
  plus1 wsS, lits "CLASS"]

/-- `DURATION:\s*(\d{1,2}:\d{2})` (line 448). -/
def durPat1 : RE := reSeq [lits "DURATION:", star0 wsS,
  .grp 1 (reSeq [repMN digS 1 2, .lit ':', repN digS 2])]

/-- `DURATION\s*(\d{1,2}H\s*\d{2}M?)` (line 449). -/
def durPat2 : RE := reSeq [lits "DURATION", star0 wsS,
  .grp 1 (reSeq [repMN digS 1 2, .lit 'H', star0 wsS, repN digS 2, opt1 (.lit 'M')])]

/-- `FLIGHT TIME:\s*(\d{1,2}:\d{2})` (line 450). -/
def durPat3 : RE := reSeq [lits "FLIGHT TIME:", star0 wsS,
  .grp 1 (reSeq [repMN digS 1 2, .lit ':', repN digS 2])]

/-- `EQUIPMENT:\s*([A-Z0-9\s\(\)-]+?)(?:\r?\n|$)` (line 453). -/
def aircraftPat1 : RE := reSeq [lits "EQUIPMENT:", star0 wsS,
  .grp 1 (plus1L (cls1 [rAZ, r09, .spc, .ch '(', .ch ')', .ch '-'])),
  .alt (reSeq [opt1 (.lit '\r'), .lit '\n']) RE.eos]

/-- `AIRCRAFT:\s*([^\r\n]+?)(?:\r|\n|$)` (line 454). -/
def aircraftPat2 : RE := reSeq [lits "AIRCRAFT:", star0 wsS,
  .grp 1 (plus1L (ncls [.ch '\r', .ch '\n'])), .alt (.lit '\r') (.alt (.lit '\n') RE.eos)]

/-- `AC:\s*([^\r\n]+?)(?:\r|\n|$)` (line 455). -/
def aircraftPat3 : RE := reSeq [lits "AC:", star0 wsS,
  .grp 1 (plus1L (ncls [.ch '\r', .ch '\n'])), .alt (.lit '\r') (.alt (.lit '\n') RE.eos)]

/-- `MEAL:\s*([A-Z\s/]+(?:\r?\n\s+[A-Z\s/]+)*?)(?=\r?\n\s*(?:NON\s+STOP|FLIGHT|$))`
(line 458). -/
def mealPat1 : RE := reSeq [lits "MEAL:", star0 wsS,
  .grp 1 (reSeq [plus1 (cls1 [rAZ, .spc, .ch '/']),
    star0L (reSeq [opt1 (.lit '\r'), .lit '\n', plus1 wsS, plus1 (cls1 [rAZ, .spc, .ch '/'])])]),
  .look (reSeq [opt1 (.lit '\r'), .lit '\n', star0 wsS,
    .alt (reSeq [lits "NON", plus1 wsS, lits "STOP"]) (.alt (lits "FLIGHT") RE.eos)])]

/-- `MEAL:\s*([^\r\n]+?)(?:\r?\n|$)` (line 459). -/
def mealPat2 : RE := reSeq [lits "MEAL:", star0 wsS,
  .grp 1 (plus1L (ncls [.ch '\r', .ch '\n'])), .alt (reSeq [opt1 (.lit '\r'), .lit '\n']) RE.eos]

/-- `CATERING:\s*([^\r\n]+?)(?:\r|\n|$)` (line 460). -/
def mealPat3 : RE := reSeq [lits "CATERING:", star0 wsS,
  .grp 1 (plus1L (ncls [.ch '\r', .ch '\n'])), .alt (.lit '\r') (.alt (.lit '\n') RE.eos)]

/-- `BAGGAGE ALLOWANCE:\s*([A-Z0-9]+)` (line 463). -/
def baggagePat1 : RE := reSeq [lits "BAGGAGE ALLOWANCE:", star0 wsS,
  .grp 1 (plus1 (cls1 [rAZ, r09]))]

/-- `BAGGAGE:\s*([A-Z0-9]+)` (line 464). -/
def baggagePat2 : RE := reSeq [lits "BAGGAGE:", star0 wsS, .grp 1 (plus1 (cls1 [rAZ, r09]))]

/-- `BAG:\s*([A-Z0-9]+)` (line 465). -/
def baggagePat3 : RE := reSeq [lits "BAG:", star0 wsS, .grp 1 (plus1 (cls1 [rAZ, r09]))]

/-- `\b([A-Z]{3})\b` (airport-code extraction, lines 566-567). -/
def threeLetterPat : RE := reSeq [.wb, .grp 1 (repN (cls1 [rAZ]) 3), .wb]

/-- `CO2 EMISSIONS IS ([\d.]+) KG/PERSON` (line 676). -/
def co2Pat : RE := reSeq [lits "CO2 EMISSIONS IS ", .grp 1 (plus1 (cls1 [.dig, .ch '.'])),
  lits " KG/PERSON"]

/-- No flags. -/
def noFl : MFlags := {}

/-- `re.IGNORECASE`. -/
def ciFl : MFlags := { ci := true }

/-- `re.IGNORECASE | re.DOTALL`. -/
def ciDotFl : MFlags := { ci := true, dotall := true }

/-! ## Data model (`FlightInfo`, `BookingInfo`) -/

/-- Mirror of the `FlightInfo` dataclass. -/
structure FlightInfo where
  flight_number : String := ""
  airline : String := ""
  departure_city : String := ""
  departure_airport : String := ""
  departure_date : String := ""
  departure_time : String := ""
  arrival_city : String := ""
  arrival_airport : String := ""
  arrival_date : String := ""
  arrival_time : String := ""
  duration : String := ""
  aircraft : String := ""
  booking_ref : String := ""
  class_type : String := ""
  meal : String := ""
  baggage : String := ""
deriving DecidableEq

/-- Mirror of the `BookingInfo` dataclass. -/
structure BookingInfo where
  passenger_name : String := ""
  booking_ref : String := ""
  date : String := ""
  group : String := ""
  ticket_number : String := ""
  flights : List FlightInfo := []
deriving DecidableEq

/-! ## Byte-level decoding (`extract_text_content`, lines 206-254)

The Python code decodes each `text/plain` part with
`bytes.decode(charset, errors='ignore')`; the UTF-8 codec with the
`ignore` handler is modelled here: undecodable byte sequences are
*dropped* and decoding continues after them. -/

/-- UTF-8 continuation byte (`0x80-0xBF`). -/
def isCont (b : Nat) : Bool := 128 ≤ b && b < 192

/-- Admissible second byte of a 3-byte sequence led by `b` (excludes
overlong encodings and surrogates, as CPython does). -/
def cont3OK (b c : Nat) : Bool :=
  if b = 224 then 160 ≤ c && c < 192
  else if b = 237 then 128 ≤ c && c < 160
  else isCont c

/-- Admissible second byte of a 4-byte sequence led by `b` (excludes
overlong encodings and codepoints above `0x10FFFF`). -/
def cont4OK (b c : Nat) : Bool :=
  if b = 240 then 144 ≤ c && c < 192
  else if b = 244 then 128 ≤ c && c < 144
  else isCont c

/-- UTF-8 decoding with `errors='ignore'`: a maximal ill-formed prefix is
skipped and decoding continues with the following byte. -/
def utf8Ignore : Nat → List Nat → List Char
  | 0, _ => []
  | _ + 1, [] => []
  | fuel + 1, b :: t =>
    if b < 128 then Char.ofNat b :: utf8Ignore fuel t
    else if 194 ≤ b && b ≤ 223 then
      match t with
      | [] => []
      | c1 :: t2 =>
        if isCont c1 then Char.ofNat ((b - 192) * 64 + (c1 - 128)) :: utf8Ignore fuel t2
        else utf8Ignore fuel t
    else if 224 ≤ b && b ≤ 239 then
      match t with
      | [] => []
      | c1 :: t2 =>
        if cont3OK b c1 then
          match t2 with
          | [] => []
          | c2 :: t3 =>
            if isCont c2 then
              Char.ofNat ((b - 224) * 4096 + (c1 - 128) * 64 + (c2 - 128)) :: utf8Ignore fuel t3
            else utf8Ignore fuel t2
        else utf8Ignore fuel t
    else if 240 ≤ b && b ≤ 244 then
      match t with
      | [] => []
      | c1 :: t2 =>
        if cont4OK b c1 then
          match t2 with
          | [] => []
          | c2 :: t3 =>
            if isCont c2 then
              match t3 with
              | [] => []
              | c3 :: t4 =>
                if isCont c3 then
                  Char.ofNat ((b - 240) * 262144 + (c1 - 128) * 4096 + (c2 - 128) * 64 + (c3 - 128))
                    :: utf8Ignore fuel t4
                else utf8Ignore fuel t3
            else utf8Ignore fuel t2
        else utf8Ignore fuel t
    else utf8Ignore fuel t

/-- `bytes.decode('utf-8', errors='ignore')`. -/
def utf8DecodeIgnore (bs : List Nat) : String := String.mk (utf8Ignore (bs.length + 1) bs)

/-- Strict UTF-8 decoding (`bytes.decode('utf-8')`): `none` on any error. -/
def utf8Strict : Nat → List Nat → Option (List Char)
  | 0, _ => none
  | _ + 1, [] => some []
  | fuel + 1, b :: t =>
    if b < 128 then (utf8Strict fuel t).map (Char.ofNat b :: ·)
    else if 194 ≤ b && b ≤ 223 then
      match t with
      | c1 :: t2 =>
        if isCont c1 then (utf8Strict fuel t2).map (Char.ofNat ((b - 192) * 64 + (c1 - 128)) :: ·)
        else none
      | [] => none
    else if 224 ≤ b && b ≤ 239 then
      match t with
      | c1 :: c2 :: t3 =>
        if cont3OK b c1 && isCont c2 then
          (utf8Strict fuel t3).map
            (Char.ofNat ((b - 224) * 4096 + (c1 - 128) * 64 + (c2 - 128)) :: ·)
        else none
      | _ => none
    else if 240 ≤ b && b ≤ 244 then
      match t with
      | c1 :: c2 :: c3 :: t4 =>
        if cont4OK b c1 && isCont c2 && isCont c3 then
          (utf8Strict fuel t4).map
            (Char.ofNat ((b - 240) * 262144 + (c1 - 128) * 4096 + (c2 - 128) * 64 + (c3 - 128)) :: ·)
        else none
      | _ => none
    else none

/-- Lowercase/uppercase hex digit as a byte. -/
def isHexB (b : Nat) : Bool := (48 ≤ b && b ≤ 57) || (65 ≤ b && b ≤ 70) || (97 ≤ b && b ≤ 102)

/-- Value of a hex-digit byte. -/
def hexValB (b : Nat) : Nat := if b ≤ 57 then b - 48 else if b ≤ 70 then b - 55 else b - 87

/-- `quopri.decodestring`: `=` + hex pair decodes to a byte, `=` before a
line break is a soft break, any other `=` is literal. -/
def quopriAux : Nat → List Nat → List Nat
  | 0, l => l
  | _ + 1, [] => []
  | fuel + 1, 61 :: t =>
    (match t with
     | 10 :: t2 => quopriAux fuel t2
     | 13 :: 10 :: t2 => quopriAux fuel t2
     | a :: b :: t2 =>
       if isHexB a && isHexB b then (16 * hexValB a + hexValB b) :: quopriAux fuel t2
       else 61 :: quopriAux fuel t
     | _ => 61 :: quopriAux fuel t)
  | fuel + 1, c :: t => c :: quopriAux fuel t

/-- `quopri.decodestring` on a byte list. -/
def quopriDecode (bs : List Nat) : List Nat := quopriAux (bs.length + 1) bs

/-- The text cleanup of lines 227-228 / 247-248: drop quoted-printable
soft breaks, then substitute residual `=XX` escapes. -/
def cleanupText (s : String) : String := subHexEscapes (pyReplace s "=\n" "")

/-- Decoding of one `text/plain` part with declared charset UTF-8
(lines 219-229): quoted-printable parts run through `quopri` first, then
`decode(charset, errors='ignore')`, then the cleanup. -/
def decodeTextPart (qp : Bool) (raw : List Nat) : String :=
  let decoded :=
    if qp then utf8DecodeIgnore (quopriDecode raw) else utf8DecodeIgnore raw
  cleanupText decoded

/-- Base64 value of a character. -/
def b64Val (c : Char) : Option Nat :=
  if 'A' ≤ c && c ≤ 'Z' then some (c.toNat - 65)
  else if 'a' ≤ c && c ≤ 'z' then some (c.toNat - 71)
  else if '0' ≤ c && c ≤ '9' then some (c.toNat + 4)
  else if c = '+' then some 62
  else if c = '/' then some 63
  else none

/-- Decode base64 quanta; `=` padding only in the final quantum. -/
def b64Quanta : Nat → List Char → Option (List Nat)
  | 0, _ => none
  | _ + 1, [] => some []
  | fuel + 1, c1 :: c2 :: c3 :: c4 :: t =>
    match b64Val c1, b64Val c2 with
    | some v1, some v2 =>
      if c3 = '=' && c4 = '=' && t.isEmpty then some [v1 * 4 + v2 / 16]
      else
        match b64Val c3 with
        | some v3 =>
          if c4 = '=' && t.isEmpty then some [v1 * 4 + v2 / 16, (v2 % 16) * 16 + v3 / 4]
          else
            match b64Val c4 with
            | some v4 =>
              (b64Quanta fuel t).map
                (fun rest => (v1 * 4 + v2 / 16) :: ((v2 % 16) * 16 + v3 / 4) ::
                  ((v3 % 4) * 64 + v4) :: rest)
            | none => none
        | none => none
    | _, _ => none
  | _ + 1, _ => none

/-- `base64.b64decode`: non-alphabet characters are discarded, then the
input must consist of 4-character quanta. -/
def b64decode (s : String) : Option (List Nat) :=
  let cs := s.data.filter (fun c => (b64Val c).isSome || c = '=')
  b64Quanta (cs.length + 1) cs

/-- Subject preprocessing of lines 261-271: splice decoded
`=?UTF-8?B?...?=` encoded words back into the subject; failures are
ignored. -/
def decodeSubject (subject : String) : String :=
  if pyIn "=?UTF-8?B?" subject then
    let parts := (reFinditer noFl encodedWordPat subject).map (fun m => mGroupD m 1)
    parts.foldl (fun subj part =>
      match b64decode part with
      | none => subj
      | some bytes =>
        match utf8Strict (bytes.length + 1) bytes with
        | none => subj
        | some chars => pyReplace subj ("=?UTF-8?B?" ++ part ++ "?=") (String.mk chars)) subject
  else subject

/-! ## `parse_booking_info` (lines 256-336) -/

/-- Group 1 of the passenger-name search on the (decoded) subject. -/
def nameGroupOf (subj : String) : Option String :=
  (reSearch noFl namePat subj).map (fun m => mGroupD m 1)

/-- Passenger-name extraction (lines 273-285): swap `LASTNAME/FIRSTNAME`
to `FIRSTNAME LASTNAME` when a `/` is present. -/
def passengerOf (subj : String) : String :=
  match nameGroupOf subj with
  | none => ""
  | some g =>
    let rawName := pstrip g
    if pyContainsChar rawName '/' then
      match pySplitOn rawName "/" with
      | p0 :: p1 :: _ => pstrip p1 ++ " " ++ pstrip p0
      | _ => pyReplace rawName "/" " "
    else rawName

/-- Group 1 of booking-reference pattern 1 on the text. -/
def refGroup1 (text : String) : Option String :=
  (reSearch ciFl bookingRefPat1 text).map (fun m => mGroupD m 1)

/-- Group 1 of booking-reference pattern 2 on the text. -/
def refGroup2 (text : String) : Option String :=
  (reSearch ciFl bookingRefPat2 text).map (fun m => mGroupD m 1)

/-- Group 1 of booking-reference pattern 3 on the text. -/
def refGroup3 (text : String) : Option String :=
  (reSearch ciFl bookingRefPat3 text).map (fun m => mGroupD m 1)

/-- Booking-reference fallback chain (lines 287-297): first match wins. -/
def bookingRefOf (text : String) : String :=
  match refGroup1 text with
  | some v => v
  | none =>
    match refGroup2 text with
    | some v => v
    | none =>
      match refGroup3 text with
      | some v => v
      | none => ""

/-- Group 1 of date pattern `i` on the text. -/
def dateGroup1 (text : String) : Option String :=
  (reSearch ciFl datePat1 text).map (fun m => mGroupD m 1)

/-- Group 1 of date pattern 2 on the text. -/
def dateGroup2 (text : String) : Option String :=
  (reSearch ciFl datePat2 text).map (fun m => mGroupD m 1)

/-- Group 1 of date pattern 3 on the text. -/
def dateGroup3 (text : String) : Option String :=
  (reSearch ciFl datePat3 text).map (fun m => mGroupD m 1)

/-- Booking-date fallback chain (lines 299-309), stripped. -/
def dateOf (text : String) : String :=
  match dateGroup1 text with
  | some v => pstrip v
  | none =>
    match dateGroup2 text with
    | some v => pstrip v
    | none =>
      match dateGroup3 text with
      | some v => pstrip v
      | none => ""

/-- Group 1 of group pattern 1 on the text. -/
def groupGroup1 (text : String) : Option String :=
  (reSearch ciFl groupPat1 text).map (fun m => mGroupD m 1)

/-- Group 1 of group pattern 2 on the text. -/
def groupGroup2 (text : String) : Option String :=
  (reSearch ciFl groupPat2 text).map (fun m => mGroupD m 1)

/-- Group 1 of group pattern 3 on the text. -/
def groupGroup3 (text : String) : Option String :=
  (reSearch ciFl groupPat3 text).map (fun m => mGroupD m 1)

/-- Group 1 of group pattern 4 on the text. -/
def groupGroup4 (text : String) : Option String :=
  (reSearch ciFl groupPat4 text).map (fun m => mGroupD m 1)

/-- Group/trip-label fallback chain (lines 311-322), stripped. -/
def groupOf (text : String) : String :=
  match groupGroup1 text with
  | some v => pstrip v
  | none =>
    match groupGroup2 text with
    | some v => pstrip v
    | none =>
      match groupGroup3 text with
      | some v => pstrip v
      | none =>
        match groupGroup4 text with
        | some v => pstrip v
        | none => ""

/-- Group 1 of ticket pattern 1 on the text. -/
def ticketGroup1 (text : String) : Option String :=
  (reSearch ciFl ticketPat1 text).map (fun m => mGroupD m 1)

/-- Group 1 of ticket pattern 2 on the text. -/
def ticketGroup2 (text : String) : Option String :=
  (reSearch ciFl ticketPat2 text).map (fun m => mGroupD m 1)

/-- Group 1 of ticket pattern 3 on the text. -/
def ticketGroup3 (text : String) : Option String :=
  (reSearch ciFl ticketPat3 text).map (fun m => mGroupD m 1)

/-- Ticket-number fallback chain (lines 324-334), stripped. -/
def ticketOf (text : String) : String :=
  match ticketGroup1 text with
  | some v => pstrip v
  | none =>
    match ticketGroup2 text with
    | some v => pstrip v
    | none =>
      match ticketGroup3 text with
      | some v => pstrip v
      | none => ""

/-- `parse_booking_info(text, msg)` with `msg`'s subject passed in. -/
def parseBookingInfo (text subject : String) : BookingInfo :=
  { passenger_name := passengerOf (decodeSubject subject)
    booking_ref := bookingRefOf text
    date := dateOf text
    group := groupOf text
    ticket_number := ticketOf text
    flights := [] }

/-! ## `parse_flights` (lines 338-495) -/

/-- The flight sections found by `finditer` over the flight pattern
(`match.group(0)` of each match, line 350-353). -/
def flightSections (text : String) : List String :=
  (reFinditer ciDotFl flightSecPat text).map (fun m => String.mk m.matched)

/-- Flight header chain (lines 357-368): first matching pattern's
groups 1 and 2. -/
def headerMatch (sec : String) : Option (String × String) :=
  match reSearch noFl flightHeaderPat1 sec with
  | some m => some (mGroupD m 1, mGroupD m 2)
  | none =>
    match reSearch noFl flightHeaderPat2 sec with
    | some m => some (mGroupD m 1, mGroupD m 2)
    | none =>
      match reSearch noFl flightHeaderPat3 sec with
      | some m => some (mGroupD m 1, mGroupD m 2)
      | none => none

/-- Apply the header match (lines 363-368). -/
def applyHeader (sec : String) (f : FlightInfo) : FlightInfo :=
  match headerMatch sec with
  | none => f
  | some (g1, g2) =>
    { f with flight_number := squeezeWs (pstrip g1), airline := pstrip g2 }

/-- Departure chain: first matching pattern with its group count. -/
def depMatch (sec : String) : Option (Nat × MatchRes) :=
  match reSearch noFl depPat1 sec with
  | some m => some (4, m)
  | none =>
    match reSearch noFl depPat2 sec with
    | some m => some (4, m)
    | none =>
      match reSearch noFl depPat3 sec with
      | some m => some (3, m)
      | none =>
        match reSearch noFl depPat4 sec with
        | some m => some (2, m)
        | none => none

/-- Arrival chain: first matching pattern with its group count. -/
def arrMatch (sec : String) : Option (Nat × MatchRes) :=
  match reSearch noFl arrPat1 sec with
  | some m => some (4, m)
  | none =>
    match reSearch noFl arrPat2 sec with
    | some m => some (4, m)
    | none =>
      match reSearch noFl arrPat3 sec with
      | some m => some (3, m)
      | none =>
        match reSearch noFl arrPat4 sec with
        | some m => some (2, m)
        | none => none

/-- Split the combined date+time token (lines 396-400): with at least
three space-separated parts, the date is the first two and the time the
third. -/
def splitDT (dtStr : String) : Option (String × String) :=
  match pySplitOn (pstrip dtStr) " " with
  | p0 :: p1 :: p2 :: _ => some (p0 ++ " " ++ p1, p2)
  | _ => none

/-- The airport/datetime selection of lines 381-394, shared by departure
and arrival: given the group count and match, return the airport field
value (`none` keeps the previous value) and the datetime string. -/
def airportAndDT (n : Nat) (m : MatchRes) : Option String × Option String :=
  if 3 ≤ n then
    if n = 4 && mGroupD m 3 ≠ "" then (some (pstrip (mGroupD m 3)), mGroup m 4)
    else
      (some (match mGroup m 2 with | some v => pstrip v | none => ""),
        if 2 < n then mGroup m 3 else mGroup m 2)
  else (none, mGroup m 2)

/-- Apply the departure match (lines 370-401). -/
def applyDep (sec : String) (f : FlightInfo) : FlightInfo :=
  match depMatch sec with
  | none => f
  | some (n, m) =>
    let f1 := { f with departure_city := pstrip (mGroupD m 1) }
    let ad := airportAndDT n m
    let f2 :=
      match ad.1 with
      | some a => { f1 with departure_airport := a }
      | none => f1
    match splitDT ((ad.2).getD "") with
    | some (d, t) => { f2 with departure_date := d, departure_time := t }
    | none => f2

/-- Apply the arrival match (lines 403-434). -/
def applyArr (sec : String) (f : FlightInfo) : FlightInfo :=
  match arrMatch sec with
  | none => f
  | some (n, m) =>
    let f1 := { f with arrival_city := pstrip (mGroupD m 1) }
    let ad := airportAndDT n m
    let f2 :=
      match ad.1 with
      | some a => { f1 with arrival_airport := a }
      | none => f1
    match splitDT ((ad.2).getD "") with
    | some (d, t) => { f2 with arrival_date := d, arrival_time := t }
    | none => f2

/-- First match of a detail chain (searched with IGNORECASE, line 472). -/
def detailChain (pats : List RE) (sec : String) : Option MatchRes :=
  match pats with
  | [] => none
  | p :: rest =>
    match reSearch ciFl p sec with
    | some m => some m
    | none => detailChain rest sec

/-- Per-segment booking reference (lines 438-441, 474-475): no strip. -/
def refDetailOf (sec : String) : String :=
  match detailChain [refDetailPat1, refDetailPat2] sec with
  | some m => mGroupD m 1
  | none => ""

/-- Rendering of a fare-class match (lines 477-480): title-cased, with
the second group appended in parentheses when present. -/
def classRender (n : Nat) (m : MatchRes) : String :=
  if 2 ≤ n && mGroupD m 2 ≠ "" then pyTitle (mGroupD m 1) ++ " (" ++ mGroupD m 2 ++ ")"
  else pyTitle (mGroupD m 1)

/-- Fare class (lines 442-446, 476-480). -/
def classTypeOf (sec : String) : String :=
  match reSearch ciFl classPat1 sec with
  | some m => classRender 2 m
  | none =>
    match reSearch ciFl classPat2 sec with
    | some m => classRender 2 m
    | none =>
      match reSearch ciFl classPat3 sec with
      | some m => classRender 1 m
      | none => ""

/-- Duration (lines 447-451, 481-482): no strip. -/
def durationOf (sec : String) : String :=
  match detailChain [durPat1, durPat2, durPat3] sec with
  | some m => mGroupD m 1
  | none => ""

/-- Aircraft (lines 452-456, 483-484): stripped. -/
def aircraftOf (sec : String) : String :=
  match detailChain [aircraftPat1, aircraftPat2, aircraftPat3] sec with
  | some m => pstrip (mGroupD m 1)
  | none => ""

/-- Meal (lines 457-461, 485-486): stripped. -/
def mealOf (sec : String) : String :=
  match detailChain [mealPat1, mealPat2, mealPat3] sec with
  | some m => pstrip (mGroupD m 1)
  | none => ""

/-- Baggage (lines 462-466, 487-488): stripped. -/
def baggageOf (sec : String) : String :=
  match detailChain [baggagePat1, baggagePat2, baggagePat3] sec with
  | some m => pstrip (mGroupD m 1)
  | none => ""

/-- Build the `FlightInfo` of one section (lines 354-489). -/
def buildFlight (sec : String) : FlightInfo :=
  let f := applyArr sec (applyDep sec (applyHeader sec {}))
  { f with
    booking_ref := refDetailOf sec
    class_type := classTypeOf sec
    duration := durationOf sec
    aircraft := aircraftOf sec
    meal := mealOf sec
    baggage := baggageOf sec }

/-- `parse_flights(text)`: one record per section that has a flight
number or both cities (lines 491-493). -/
def parseFlights (text : String) : List FlightInfo :=
  (flightSections text).foldr
    (fun sec acc =>
      let f := buildFlight sec
      if f.flight_number ≠ "" || (f.departure_city ≠ "" && f.arrival_city ≠ "") then f :: acc
      else acc) []

/-- `filter_valid_flights` (lines 497-508). -/
def filterValidFlights (flights : List FlightInfo) : List FlightInfo :=
  match flights with
  | [] => []
  | f :: rest =>
    if f.flight_number ≠ "" && f.departure_city ≠ "" && f.arrival_city ≠ "" &&
        f.departure_date ≠ "" && f.arrival_date ≠ "" then
      f :: filterValidFlights rest
    else filterValidFlights rest

/-! ## Document composition (`format_*`, `convert_to_html`, lines 510-709) -/

/-- The CSS style block of lines 59-199, verbatim. -/
def cssStyle : String :=
  "\n        @page \x7b \n            size: A4; \n            margin: 20mm; \n        \x7d\n        body \x7b\n            font-family: \x27Helvetica Now\x27, \x27Helvetica Neue\x27, \x27Helvetica\x27, \x27Arial\x27, sans-serif;\n            margin: 0;\n            line-height: 1.4;\n            color: #000;\n            font-size: 11px;\n        \x7d\n        .company-header \x7b\n            text-align: center;\n            margin-bottom: 15px;\n            padding-bottom: 10px;\n" ++
  "        \x7d\n        .company-logo \x7b\n            max-height: 60px;\n            margin-bottom: 10px;\n        \x7d\n        .company-info \x7b\n            padding: 10px 0;\n            margin-top: 20px;\n            font-size: 9px;\n            line-height: 1.3;\n            text-align: center;\n        \x7d\n        .company-info h3 \x7b\n            margin: 0 0 8px 0;\n            color: #000;\n            font-size: 12px;\n" ++
  "            font-weight: bold;\n        \x7d\n        .company-info .contact-grid \x7b\n            display: grid;\n            grid-template-columns: 1fr 1fr;\n            gap: 10px;\n        \x7d\n        .company-info .contact-item \x7b\n            margin-bottom: 3px;\n        \x7d\n        .booking-summary \x7b\n            border: 2px solid #000;\n            padding: 15px;\n            margin-bottom: 20px;\n        \x7d\n        .booking-summary h2 \x7b\n" ++
  "            margin: 0 0 10px 0;\n            color: #000;\n            font-size: 16px;\n            font-weight: bold;\n            text-transform: uppercase;\n        \x7d\n        .passenger-info \x7b\n            display: grid;\n            grid-template-columns: 1fr 1fr 1fr;\n            gap: 15px;\n            margin-bottom: 10px;\n        \x7d\n        .info-item \x7b\n            font-size: 11px;\n        \x7d\n        .info-label \x7b\n" ++
  "            font-weight: bold;\n            color: #000;\n        \x7d\n        .flight-card \x7b\n            border: 2px solid #000;\n            margin-bottom: 15px;\n            overflow: hidden;\n        \x7d\n        .flight-header \x7b\n            background-color: #000;\n            color: #fff;\n            padding: 10px 15px;\n            font-weight: bold;\n            font-size: 12px;\n            text-transform: uppercase;\n" ++
  "        \x7d\n        .flight-route \x7b\n            display: grid;\n            grid-template-columns: 1fr auto 1fr;\n            align-items: center;\n            padding: 15px;\n            gap: 20px;\n        \x7d\n        .airport-info \x7b\n            text-align: center;\n        \x7d\n        .airport-code \x7b\n            font-size: 20px;\n            font-weight: bold;\n            color: #000;\n        \x7d\n        .airport-name \x7b\n" ++
  "            font-size: 9px;\n            color: #000;\n            margin-top: 2px;\n        \x7d\n        .datetime \x7b\n            font-size: 10px;\n            font-weight: bold;\n            margin-top: 5px;\n            color: #000;\n        \x7d\n        .flight-arrow \x7b\n            text-align: center;\n            color: #000;\n            font-size: 16px;\n            font-weight: bold;\n        \x7d\n        .flight-details \x7b\n" ++
  "            border-top: 1px solid #000;\n            padding: 10px 15px;\n            display: grid;\n            grid-template-columns: repeat(4, 1fr);\n            gap: 10px;\n            font-size: 9px;\n        \x7d\n        .detail-item \x7b\n            text-align: center;\n        \x7d\n        .detail-label \x7b\n            font-weight: bold;\n            color: #000;\n            margin-bottom: 2px;\n        \x7d\n        .ticket-info \x7b\n" ++
  "            border: 1px solid #000;\n            padding: 10px;\n            margin-top: 15px;\n            font-size: 10px;\n        \x7d\n        .ticket-info h3 \x7b\n            margin: 0 0 8px 0;\n            color: #000;\n            font-size: 11px;\n            font-weight: bold;\n        \x7d\n        "

/-- The booking-summary section (`format_booking_summary`, lines 536-557). -/
def formatBookingSummary (booking : BookingInfo) : String :=
  "\n        <div class=\"booking-summary\">\n            <h2>Flight Booking Confirmation</h2>\n            <div class=\"passenger-info\">\n                <div class=\"info-item\">\n                    <div class=\"info-label\">Passenger</div>\n                    <div>" ++
    (htmlEscape (orNA booking.passenger_name)) ++
    "</div>\n                </div>\n                <div class=\"info-item\">\n                    <div class=\"info-label\">Booking Reference</div>\n                    <div>" ++
    (htmlEscape (orNA booking.booking_ref)) ++
    "</div>\n                </div>\n                <div class=\"info-item\">\n                    <div class=\"info-label\">Booking Date</div>\n                    <div>" ++
    (htmlEscape (orNA booking.date)) ++
    "</div>\n                </div>\n            </div>\n            " ++
    (if booking.group = "" then "" else "<div class=\"info-item\"><div class=\"info-label\">Group</div><div>" ++ htmlEscape booking.group ++ "</div></div>") ++
    "\n        </div>\n        "

/-- The template of `format_flight_card` (lines 583-623), as a function of
the derived airport codes and city labels. -/
def formatFlightCardBody(flight : FlightInfo) (depAirportCode depCityName arrAirportCode arrCityName : String) : String :=
  "\n        <div class=\"flight-card\">\n            <div class=\"flight-header\">\n                Flight " ++
    (flight.flight_number) ++
    " - " ++
    (flight.airline) ++
    "\n            </div>\n            <div class=\"flight-route\">\n                <div class=\"airport-info\">\n                    <div class=\"airport-code\">" ++
    (depAirportCode) ++
    "</div>\n                    <div class=\"airport-name\">" ++
    (htmlEscape depCityName) ++
    "</div>\n                    <div class=\"datetime\">" ++
    (flight.departure_date) ++
    "</div>\n                    <div class=\"datetime\">" ++
    (flight.departure_time) ++
    "</div>\n                </div>\n                <div class=\"flight-arrow\">→</div>\n                <div class=\"airport-info\">\n                    <div class=\"airport-code\">" ++
    (arrAirportCode) ++
    "</div>\n                    <div class=\"airport-name\">" ++
    (htmlEscape arrCityName) ++
    "</div>\n                    <div class=\"datetime\">" ++
    (flight.arrival_date) ++
    "</div>\n                    <div class=\"datetime\">" ++
    (flight.arrival_time) ++
    "</div>\n                </div>\n            </div>\n            <div class=\"flight-details\">\n                <div class=\"detail-item\">\n                    <div class=\"detail-label\">Duration</div>\n                    <div>" ++
    (orNA flight.duration) ++
    "</div>\n                </div>\n                <div class=\"detail-item\">\n                    <div class=\"detail-label\">Class</div>\n                    <div>" ++
    (orNA flight.class_type) ++
    "</div>\n                </div>\n                <div class=\"detail-item\">\n                    <div class=\"detail-label\">Aircraft</div>\n                    <div>" ++
    (htmlEscape (orNA flight.aircraft)) ++
    "</div>\n                </div>\n                <div class=\"detail-item\">\n                    <div class=\"detail-label\">Baggage</div>\n                    <div>" ++
    (orNA flight.baggage) ++
    "</div>\n                </div>\n            </div>\n            " ++
    (if flight.meal = "" then "" else "<div style=\"padding: 10px 15px; font-size: 9px; border-top: 1px solid #000;\"><strong>Meal:</strong> " ++ htmlEscape flight.meal ++ "</div>") ++
    "\n        </div>\n        "

/-- `dep_code` of line 562: the first comma-piece of the departure city,
stripped, defaulting to `N/A`.  (`flightNum` below is accepted and
unused, as in the source.) -/
def depCodeOf (flight : FlightInfo) : String :=
  if flight.departure_city ≠ "" then pstrip ((pySplitOn flight.departure_city ",").headD "")
  else "N/A"

/-- `arr_code` of line 563: the first comma-piece of the arrival city,
stripped, defaulting to `N/A`. -/
def arrCodeOf (flight : FlightInfo) : String :=
  if flight.arrival_city ≠ "" then pstrip ((pySplitOn flight.arrival_city ",").headD "")
  else "N/A"

/-- The code/label derivation of lines 566-581: when a word-bounded
3-letter uppercase token exists in the code string, it becomes the
displayed airport code and the label is the remainder; otherwise the
first three characters (uppercased) become the code and the label falls
back to the record's airport field. -/
def deriveAirport (code airportField : String) : String × String :=
  match reSearch noFl threeLetterPat code with
  | some m => (mGroupD m 1, stripParenSpace (pyReplace code (mGroupD m 1) ""))
  | none =>
    (if 3 ≤ code.length then pyUpper (strTake code 3) else code, airportField)

/-- `format_flight_card` assembled (lines 559-623). -/
def formatFlightCard (flight : FlightInfo) (flightNum : Nat) : String :=
  formatFlightCardBody flight
    (deriveAirport (depCodeOf flight) flight.departure_airport).1
    (deriveAirport (depCodeOf flight) flight.departure_airport).2
    (deriveAirport (arrCodeOf flight) flight.arrival_airport).1
    (deriveAirport (arrCodeOf flight) flight.arrival_airport).2

/-- Head of the document (lines 641-649). -/
def docHead: String :=
  "\n        <!DOCTYPE html>\n        <html>\n        <head>\n            <meta charset=\"UTF-8\">\n            <style>" ++
    (cssStyle) ++
    "</style>\n        </head>\n        <body>\n        "

/-- Company-logo block (lines 652-656). -/
def docLogo: String :=
  "\n        <div class=\"company-header\">\n            <img src=\"https://www.triptojapan.com/logo.svg\" alt=\"Trip to Japan\" class=\"company-logo\">\n        </div>\n        "

/-- Ticket-information block (lines 667-673). -/
def docTicket(bookingInfo : BookingInfo) : String :=
  "\n            <div class=\"ticket-info\">\n                <h3>Ticket Information</h3>\n                <div><strong>Ticket Number:</strong> " ++
    (htmlEscape bookingInfo.ticket_number) ++
    "</div>\n                <div><strong>Passenger:</strong> " ++
    (htmlEscape (orNA bookingInfo.passenger_name)) ++
    "</div>\n            </div>\n            "

/-- Environmental-impact block (lines 678-683). -/
def docCO2(co2 : String) : String :=
  "\n            <div style=\"border: 1px solid #000; padding: 10px; margin-top: 15px; font-size: 9px; text-align: center;\">\n                <strong>ENVIRONMENTAL IMPACT:</strong> Estimated CO2 emissions: " ++
    (co2) ++
    " kg per person<br>\n                Source: ICAO Carbon Emissions Calculator\n            </div>\n            "

/-- Company-information footer (lines 686-705). -/
def docFooter: String :=
  "\n        <div class=\"company-info\">\n            <div class=\"contact-grid\">\n                <div>\n                    <div class=\"contact-item\"><strong>Phone:</strong> +81 03-4578-2152</div>\n                    <div class=\"contact-item\"><strong>Email:</strong> info@triptojapan.com</div>\n                </div>\n                <div>\n                    <div class=\"contact-item\"><strong>Address:</strong><br>\n                    Takanawa Travel K.K.,<br>\n                    Kitashinagawa 5-11-1<br>\n                    Shinagawa, Tokyo, Japan</div>\n                </div>\n            </div>\n            <div style=\"margin-top: 8px; font-size: 8px; color: #000;\">\n                <strong>Certified Travel License</strong><br>\n                Tokyo Metropolitan Government Office: No.3-8367\n            </div>\n        </div>\n        "

/-- The content selection of lines 630-633: plain text when non-empty,
else the HTML body, else a fixed notice. -/
def chooseTextContent (plainText htmlContent : String) : String :=
  let t := if plainText ≠ "" then plainText else htmlContent
  if t = "" then "No readable content found in email." else t

/-- `enumerate(flights, 1)`. -/
def enumFrom : Nat → List FlightInfo → List (Nat × FlightInfo)
  | _, [] => []
  | i, f :: t => (i, f) :: enumFrom (i + 1) t

/-- The flight cards of the document, in order (lines 662-663). -/
def flightCards (flights : List FlightInfo) : String :=
  String.join ((enumFrom 1 flights).map (fun p => formatFlightCard p.2 p.1))

/-- `convert_to_html` (lines 625-709), with the decoded plain-text and
HTML bodies and the subject as inputs. -/
def convertToHtml (plainText htmlContent subject : String) : String :=
  let textContent := chooseTextContent plainText htmlContent
  let bookingInfo := parseBookingInfo textContent subject
  let flights := filterValidFlights (parseFlights textContent)
  docHead ++ docLogo ++ formatBookingSummary bookingInfo ++ flightCards flights ++
    (if bookingInfo.ticket_number = "" then "" else docTicket bookingInfo) ++
    (match reSearch ciFl co2Pat textContent with
      | some m => docCO2 (mGroupD m 1)
      | none => "") ++
    docFooter ++ "</body></html>"

/-! ## Concrete scenario inputs used by the claims -/

/-- The spec's end-to-end scenario body: one complete flight section and a
booking reference. -/
def scenarioText : String :=
  "BOOKING REF: ABC123\nFLIGHT NH123 - ANA\nDEPARTURE: TOKYO (NRT) 12 JAN 10:00\nARRIVAL: LOS ANGELES (LAX) 12 JAN 22:00\n"

/-- The same body with the departure date and time removed. -/
def scenarioTextNoDate : String :=
  "BOOKING REF: ABC123\nFLIGHT NH123 - ANA\nDEPARTURE: TOKYO (NRT)\nARRIVAL: LOS ANGELES (LAX) 12 JAN 22:00\n"

/-- The scenario body with a fare-class line whose bracketed part carries
markup. -/
def injText : String := scenarioText ++ "ECONOMY (<I>)\n"

/-- The composed document for the complete scenario. -/
def scenarioDoc : String := convertToHtml scenarioText "" ""

/-- The composed document for the scenario without a departure date. -/
def scenarioDocNoDate : String := convertToHtml scenarioTextNoDate "" ""

/-- The composed document for the markup-carrying scenario. -/
def injDoc : String := convertToHtml injText "" ""

/-! ## Claim-side definitions -/

/-- The claim's completeness predicate: the five required fields are all
non-empty. -/
def claimValidFlight (f : FlightInfo) : Prop :=
  f.flight_number ≠ "" ∧ f.departure_city ≠ "" ∧ f.arrival_city ≠ "" ∧
    f.departure_date ≠ "" ∧ f.arrival_date ≠ ""

instance (f : FlightInfo) : Decidable (claimValidFlight f) := by
  unfold claimValidFlight; infer_instance

/-- A validated flight record with an empty airline and every
fallback-bearing slot filled. -/
def emptyAirlineFlight : FlightInfo :=
  { flight_number := "NH123", airline := "", departure_city := "TOKYO",
    departure_airport := "", departure_date := "12 JAN", departure_time := "10:00",
    arrival_city := "OSAKA", arrival_airport := "", arrival_date := "12 JAN",
    arrival_time := "18:00", duration := "2:00", aircraft := "B787", booking_ref := "",
    class_type := "Economy (Y)", meal := "IN FLIGHT MEAL", baggage := "23K" }

/-- A booking record with every optional field filled. -/
def groupedBooking : BookingInfo :=
  { passenger_name := "JOHN DOE", booking_ref := "ABC123", date := "12 JAN 2024",
    group := "TOUR 5", ticket_number := "123/4567890", flights := [] }

/-- The string spelled by a list of ASCII byte values. -/
def asciiStr (bs : List Nat) : String := String.mk (bs.map Char.ofNat)

/-! ## Lemmas about the substring relation -/

theorem strData_append (a b : String) : (a ++ b).data = a.data ++ b.data := rfl

theorem containsB_iff (l n : List Char) : containsB l n = true ↔ n <:+: l := by
  induction l with
  | nil =>
    simp only [containsB, List.isEmpty_iff, List.infix_nil]
  | cons h t ih =>
    show (n.isPrefixOf (h :: t) || containsB t n) = true ↔ _
    rw [Bool.or_eq_true, List.isPrefixOf_iff_prefix, ih, List.infix_cons_iff]

theorem sContains_iff (hay needle : String) :
    sContains hay needle ↔ needle.data <:+: hay.data := by
  unfold sContains
  exact containsB_iff _ _

theorem scL (a b t : String) (h : sContains a t) : sContains (a ++ b) t := by
  rw [sContains_iff] at h ⊢
  rw [strData_append]
  obtain ⟨s, u, hsu⟩ := h
  exact ⟨s, u ++ b.data, by rw [← hsu]; simp⟩

theorem scR2 (a b t : String) (h : sContains b t) : sContains (a ++ b) t := by
  rw [sContains_iff] at h ⊢
  rw [strData_append]
  obtain ⟨s, u, hsu⟩ := h
  exact ⟨a.data ++ s, u, by rw [← hsu]; simp⟩

theorem scSelf (a : String) : sContains a a := by
  rw [sContains_iff]

theorem scTail3 (p a b c : String) : sContains (((p ++ a) ++ b) ++ c) (a ++ b ++ c) := by
  rw [sContains_iff]
  exact ⟨p.data, [], by simp [strData_append]⟩

theorem scTail3Trim (p a1 a2 b c1 c2 : String) :
    sContains (((p ++ (a1 ++ a2)) ++ b) ++ (c1 ++ c2)) (a2 ++ b ++ c1) := by
  rw [sContains_iff]
  exact ⟨p.data ++ a1.data, c2.data, by simp [strData_append]⟩

theorem scTail5Trim (p a1 a2 b c d e1 e2 : String) :
    sContains (((((p ++ (a1 ++ a2)) ++ b) ++ c) ++ d) ++ (e1 ++ e2))
      (a2 ++ b ++ c ++ d ++ e1) := by
  rw [sContains_iff]
  exact ⟨p.data ++ a1.data, e2.data, by simp [strData_append]⟩

/-! ## Generic facts about the composed document, shared by the claims -/

theorem summary_contains_class (b : BookingInfo) :
    sContains (formatBookingSummary b) "class=\"booking-summary\"" := by
  unfold formatBookingSummary
  iterate 8 apply scL
  decide

theorem convertToHtml_chain (p h s : String) :
    convertToHtml p h s =
      docHead ++ docLogo ++ formatBookingSummary (parseBookingInfo (chooseTextContent p h) s) ++
        flightCards (filterValidFlights (parseFlights (chooseTextContent p h))) ++
        (if (parseBookingInfo (chooseTextContent p h) s).ticket_number = "" then ""
          else docTicket (parseBookingInfo (chooseTextContent p h) s)) ++
        (match reSearch ciFl co2Pat (chooseTextContent p h) with
          | some m => docCO2 (mGroupD m 1)
          | none => "") ++
        docFooter ++ "</body></html>" := rfl

theorem convertToHtml_contains_logo (p h s : String) :
    sContains (convertToHtml p h s) "alt=\"Trip to Japan\"" := by
  rw [convertToHtml_chain]
  iterate 6 apply scL
  apply scR2
  decide

theorem convertToHtml_contains_summary (p h s : String) :
    sContains (convertToHtml p h s) "class=\"booking-summary\"" := by
  rw [convertToHtml_chain]
  iterate 5 apply scL
  apply scR2
  exact summary_contains_class _

theorem convertToHtml_contains_footer (p h s : String) :
    sContains (convertToHtml p h s) "Takanawa Travel K.K." := by
  rw [convertToHtml_chain]
  apply scL
  apply scR2
  decide

/-! ## Claim C1 -/

/-- Claim C1: `filter_valid_flights` returns exactly the records whose
flight number, departure city, arrival city, departure date and arrival
date are all non-empty, as a stable-order sublist of the input with the
retained records unchanged. -/
theorem claim_C1 (flights : List FlightInfo) :
    filterValidFlights flights = flights.filter (fun f => decide (claimValidFlight f)) ∧
      (filterValidFlights flights).Sublist flights := by
  have hf : filterValidFlights flights =
      flights.filter (fun f => decide (claimValidFlight f)) := by
    induction flights with
    | nil => rfl
    | cons f rest ih =>
      show (if _ then f :: filterValidFlights rest else filterValidFlights rest) = _
      rw [List.filter_cons, ih]
      simp [claimValidFlight, Bool.and_assoc]
  exact ⟨hf, hf ▸ List.filter_sublist _⟩

/-! ## Claim C8 -/

/-- Claim C8: extraction is total and every unresolved field independently
defaults to the empty string — when a field's whole fallback chain fails
the field is empty, and with no flight sections the flight list is empty;
no failure is possible (the extraction functions are total by
construction). -/
theorem claim_C8 (text subject : String) :
    (nameGroupOf (decodeSubject subject) = none →
      (parseBookingInfo text subject).passenger_name = "") ∧
    (refGroup1 text = none → refGroup2 text = none → refGroup3 text = none →
      (parseBookingInfo text subject).booking_ref = "") ∧
    (dateGroup1 text = none → dateGroup2 text = none → dateGroup3 text = none →
      (parseBookingInfo text subject).date = "") ∧
    (groupGroup1 text = none → groupGroup2 text = none → groupGroup3 text = none →
      groupGroup4 text = none → (parseBookingInfo text subject).group = "") ∧
    (ticketGroup1 text = none → ticketGroup2 text = none → ticketGroup3 text = none →
      (parseBookingInfo text subject).ticket_number = "") ∧
    (flightSections text = [] → parseFlights text = []) := by
  refine ⟨?_, ?_, ?_, ?_, ?_, ?_⟩
  · intro h1
    show passengerOf (decodeSubject subject) = ""
    unfold passengerOf
    rw [h1]
  · intro h1 h2 h3
    show bookingRefOf text = ""
    unfold bookingRefOf
    rw [h1, h2, h3]
  · intro h1 h2 h3
    show dateOf text = ""
    unfold dateOf
    rw [h1, h2, h3]
  · intro h1 h2 h3 h4
    show groupOf text = ""
    unfold groupOf
    rw [h1, h2, h3, h4]
  · intro h1 h2 h3
    show ticketOf text = ""
    unfold ticketOf
    rw [h1, h2, h3]
  · intro h
    unfold parseFlights
    rw [h]
    rfl

/-- Witness for C8 at a text and subject where every chain fails. -/
theorem claim_C8_witness :
    (parseBookingInfo "zzz" "zzz").passenger_name = "" ∧
    (parseBookingInfo "zzz" "zzz").booking_ref = "" ∧
    (parseBookingInfo "zzz" "zzz").date = "" ∧
    (parseBookingInfo "zzz" "zzz").group = "" ∧
    (parseBookingInfo "zzz" "zzz").ticket_number = "" ∧
    parseFlights "zzz" = [] := by
  obtain ⟨w1, w2, w3, w4, w5, w6⟩ := claim_C8 "zzz" "zzz"
  exact ⟨w1 (by decide), w2 (by decide) (by decide) (by decide),
    w3 (by decide) (by decide) (by decide),
    w4 (by decide) (by decide) (by decide) (by decide),
    w5 (by decide) (by decide) (by decide), w6 (by decide)⟩

/-! ## Claim C7 -/

theorem utf8Ignore_ascii (s : List Nat) :
    ∀ fuel : Nat, s.length < fuel → (∀ b ∈ s, b < 128) →
      utf8Ignore fuel s = s.map Char.ofNat := by
  induction s with
  | nil =>
    intro fuel hf _
    match fuel, hf with
    | fuel + 1, _ => rfl
  | cons b t ih =>
    intro fuel hf hb
    match fuel, hf with
    | fuel + 1, hf =>
      have hb0 : b < 128 := hb b (List.mem_cons_self _ _)
      show (if b < 128 then Char.ofNat b :: utf8Ignore fuel t else _) = _
      rw [if_pos hb0, List.map_cons,
        ih fuel (by simpa using Nat.lt_of_succ_lt_succ hf)
          (fun x hx => hb x (List.mem_cons_of_mem _ hx))]

theorem utf8Ignore_drops_ff (p : List Nat) :
    ∀ (fuel : Nat) (s : List Nat), (p ++ 255 :: s).length < fuel →
      (∀ b ∈ p, b < 128) → (∀ b ∈ s, b < 128) →
      utf8Ignore fuel (p ++ 255 :: s) = p.map Char.ofNat ++ s.map Char.ofNat := by
  induction p with
  | nil =>
    intro fuel s hf hs
    match fuel, hf with
    | fuel + 1, hf =>
      intro hb
      show utf8Ignore fuel s = s.map Char.ofNat
      exact utf8Ignore_ascii s fuel (by simpa using Nat.lt_of_succ_lt_succ hf) hb
  | cons b p2 ih =>
    intro fuel s hf hp hs
    match fuel, hf with
    | fuel + 1, hf =>
      have hb0 : b < 128 := hp b (List.mem_cons_self _ _)
      show (if b < 128 then Char.ofNat b :: utf8Ignore fuel (p2 ++ 255 :: s) else _) = _
      rw [if_pos hb0, List.map_cons, List.cons_append,
        ih fuel s (by simpa using Nat.lt_of_succ_lt_succ hf)
          (fun x hx => hp x (List.mem_cons_of_mem _ hx)) hs]

/-- Counterexample to C7 as stated: the decoder uses `errors='ignore'`,
so an undecodable byte is dropped and no replacement character appears in
the output. -/
theorem claim_C7_cex :
    decodeTextPart false [65, 255, 66] = "AB" ∧
    ¬ sContains (decodeTextPart false [65, 255, 66]) (String.mk [Char.ofNat 65533]) := by
  refine ⟨by decide, by decide⟩

/-- Claim C7 (amended): a per-part decode failure never aborts the decode
and the rest of the text is returned, but the undecodable byte is
*dropped* (`errors='ignore'`), not replaced by the replacement character:
around an invalid `0xFF` byte, both ASCII halves survive unchanged. -/
theorem claim_C7_amended (p s : List Nat) (hp : ∀ b ∈ p, b < 128) (hs : ∀ b ∈ s, b < 128) :
    utf8DecodeIgnore (p ++ 255 :: s) = asciiStr p ++ asciiStr s ∧
    decodeTextPart false (p ++ 255 :: s) = cleanupText (asciiStr p ++ asciiStr s) := by
  have h1 : utf8DecodeIgnore (p ++ 255 :: s) = asciiStr p ++ asciiStr s := by
    unfold utf8DecodeIgnore
    rw [utf8Ignore_drops_ff p _ s (Nat.lt_succ_self _) hp hs]
    rfl
  exact ⟨h1, by unfold decodeTextPart; rw [h1]; rfl⟩

/-- Witness for C7 around a concrete invalid byte. -/
theorem claim_C7_witness :
    utf8DecodeIgnore [72, 255, 105] = "Hi" ∧ decodeTextPart false [72, 255, 105] = "Hi" := by
  obtain ⟨w1, w2⟩ := claim_C7_amended [72] [105] (by decide) (by decide)
  exact ⟨w1.trans (by decide), w2.trans (by decide)⟩

/-! ## Claim C10 -/

/-- Claim C10: the composed document falls back through content sources —
non-empty plain text is used, else the HTML body, else the fixed notice —
and a document with logo header, booking summary and company footer is
produced in every case. -/
theorem claim_C10 (plainText htmlContent subject : String) :
    (plainText ≠ "" → chooseTextContent plainText htmlContent = plainText) ∧
    (plainText = "" → htmlContent ≠ "" → chooseTextContent plainText htmlContent = htmlContent) ∧
    (plainText = "" → htmlContent = "" →
      chooseTextContent plainText htmlContent = "No readable content found in email.") ∧
    sContains (convertToHtml plainText htmlContent subject) "alt=\"Trip to Japan\"" ∧
    sContains (convertToHtml plainText htmlContent subject) "class=\"booking-summary\"" ∧
    sContains (convertToHtml plainText htmlContent subject) "Takanawa Travel K.K." := by
  refine ⟨?_, ?_, ?_, convertToHtml_contains_logo _ _ _,
    convertToHtml_contains_summary _ _ _, convertToHtml_contains_footer _ _ _⟩
  · intro hp
    simp [chooseTextContent, hp]
  · intro hp hh
    simp [chooseTextContent, hp, hh]
  · intro hp hh
    simp [chooseTextContent, hp, hh]

/-- Witness for C10 at a message with no readable body. -/
theorem claim_C10_witness :
    chooseTextContent "" "" = "No readable content found in email." ∧
    sContains (convertToHtml "" "" "") "alt=\"Trip to Japan\"" ∧
    sContains (convertToHtml "" "" "") "Takanawa Travel K.K." := by
  obtain ⟨_, _, w3, w4, _, w6⟩ := claim_C10 "" "" ""
  exact ⟨w3 rfl rfl, w4, w6⟩

/-! ## Claim C4 -/

/-- Counterexample to C4 as stated: a subject *containing* the substring
`DOE/JOHN 12JAN2024 TYO-NRT` need not yield passenger name `JOHN DOE` —
preceding uppercase text is absorbed into the lazily matched name. -/
theorem claim_C4_cex :
    sContains "A DOE/JOHN 12JAN2024 TYO-NRT" "DOE/JOHN 12JAN2024 TYO-NRT" ∧
    (parseBookingInfo "" "A DOE/JOHN 12JAN2024 TYO-NRT").passenger_name = "JOHN A DOE" ∧
    (parseBookingInfo "" "A DOE/JOHN 12JAN2024 TYO-NRT").passenger_name ≠ "JOHN DOE" := by
  refine ⟨by decide, ?_, ?_⟩ <;> decide

/-- Claim C4 (amended): when the name matched by the subject pattern is
exactly `DOE/JOHN`, the passenger name is the swapped `JOHN DOE`; when the
pattern does not match, the passenger name stays empty and extraction does
not fail. -/
theorem claim_C4_amended (text subject : String) :
    (nameGroupOf (decodeSubject subject) = some "DOE/JOHN" →
      (parseBookingInfo text subject).passenger_name = "JOHN DOE") ∧
    (nameGroupOf (decodeSubject subject) = none →
      (parseBookingInfo text subject).passenger_name = "") := by
  constructor
  · intro h
    show passengerOf (decodeSubject subject) = "JOHN DOE"
    unfold passengerOf
    rw [h]
    decide
  · intro h
    show passengerOf (decodeSubject subject) = ""
    unfold passengerOf
    rw [h]

/-- Witness for C4 at the spec's subject and at a non-matching subject. -/
theorem claim_C4_witness :
    (parseBookingInfo "" "DOE/JOHN 12JAN2024 TYO-NRT").passenger_name = "JOHN DOE" ∧
    (parseBookingInfo "" "no name").passenger_name = "" := by
  exact ⟨(claim_C4_amended "" "DOE/JOHN 12JAN2024 TYO-NRT").1 (by decide),
    (claim_C4_amended "" "no name").2 (by decide)⟩

/-! ## Claim C5 -/

/-- Counterexample to C5 as stated: a text containing `HAVE A GOOD TRIP`
with no `GROUP:` and no `TRIP ID:` marker can still set the group label,
because the first group pattern accepts `GROUP` followed by whitespace
without any colon. -/
theorem claim_C5_cex :
    sContains "HAVE A GOOD TRIP\nGROUP TOURS" "HAVE A GOOD TRIP" ∧
    ¬ sContains "HAVE A GOOD TRIP\nGROUP TOURS" "GROUP:" ∧
    ¬ sContains "HAVE A GOOD TRIP\nGROUP TOURS" "TRIP ID:" ∧
    (parseBookingInfo "HAVE A GOOD TRIP\nGROUP TOURS" "").group = "TOURS" ∧
    (parseBookingInfo "HAVE A GOOD TRIP\nGROUP TOURS" "").group ≠ "" := by
  refine ⟨by decide, by decide, by decide, by decide, by decide⟩

/-- Claim C5 (amended): the phrase `HAVE A GOOD TRIP` on its own matches
none of the four group patterns, so such a text leaves the group label
empty; in general the label stays empty exactly when all four patterns
fail — but a colon-less `GROUP <text>` token does set it. -/
theorem claim_C5_amended (text subject : String) :
    (parseBookingInfo "HAVE A GOOD TRIP" "").group = "" ∧
    (groupGroup1 text = none → groupGroup2 text = none → groupGroup3 text = none →
      groupGroup4 text = none → (parseBookingInfo text subject).group = "") := by
  constructor
  · decide
  · intro h1 h2 h3 h4
    show groupOf text = ""
    unfold groupOf
    rw [h1, h2, h3, h4]

/-- Witness for C5: the four group patterns all fail on
`HAVE A GOOD TRIP`, and the extracted label is empty. -/
theorem claim_C5_witness :
    (parseBookingInfo "HAVE A GOOD TRIP" "").group = "" := by
  exact (claim_C5_amended "HAVE A GOOD TRIP" "").2 (by decide) (by decide) (by decide) (by decide)

/-! ## Claim C6 -/

/-- Counterexample to C6 as stated: a text containing
`BOOKING REF: AB1234` with no other reference marker need not resolve to
`AB1234` — the greedy 6-8 character token can extend past it. -/
theorem claim_C6_cex :
    sContains "BOOKING REF: AB1234X" "BOOKING REF: AB1234" ∧
    countOccur "BOOKING REF: AB1234X" "REF:" = 1 ∧
    (parseBookingInfo "BOOKING REF: AB1234X" "").booking_ref = "AB1234X" ∧
    (parseBookingInfo "BOOKING REF: AB1234X" "").booking_ref ≠ "AB1234" := by
  refine ⟨by decide, by decide, by decide, by decide⟩

/-- Claim C6 (amended): the fallback chain is ordered — when the
highest-priority pattern (`BOOKING REF:`) matches with value `AB1234`,
that value wins; when patterns 1 and 2 fail and the looser `REF:` pattern
matches `CD5678`, that value is used. -/
theorem claim_C6_amended (text subject : String) :
    (refGroup1 text = some "AB1234" →
      (parseBookingInfo text subject).booking_ref = "AB1234") ∧
    (refGroup1 text = none → refGroup2 text = none → refGroup3 text = some "CD5678" →
      (parseBookingInfo text subject).booking_ref = "CD5678") := by
  constructor
  · intro h1
    show bookingRefOf text = "AB1234"
    unfold bookingRefOf
    rw [h1]
  · intro h1 h2 h3
    show bookingRefOf text = "CD5678"
    unfold bookingRefOf
    rw [h1, h2, h3]

/-- Witness for C6 at the spec's two scenario texts. -/
theorem claim_C6_witness :
    (parseBookingInfo "BOOKING REF: AB1234" "").booking_ref = "AB1234" ∧
    (parseBookingInfo "REF: CD5678" "").booking_ref = "CD5678" := by
  exact ⟨(claim_C6_amended "BOOKING REF: AB1234" "").1 (by decide),
    (claim_C6_amended "REF: CD5678" "").2 (by decide) (by decide) (by decide)⟩

/-! ## Slot lemmas for the rendered templates (claims C2 and C9) -/

theorem cardHas_header_raw (flight : FlightInfo) (a b c d : String) :
    sContains (formatFlightCardBody flight a b c d)
      ("Flight " ++ flight.flight_number ++ " - " ++ flight.airline ++ "\n") := by
  unfold formatFlightCardBody
  iterate 26 apply scL
  exact scTail5Trim "" "\n        <div class=\"flight-card\">\n            <div class=\"flight-header\">\n                " "Flight " _ _ _ "\n" "            </div>\n            <div class=\"flight-route\">\n                <div class=\"airport-info\">\n                    <div class=\"airport-code\">"

theorem cardHas_depDate_raw (flight : FlightInfo) (a b c d : String) :
    sContains (formatFlightCardBody flight a b c d) ("<div class=\"datetime\">" ++ flight.departure_date ++ "</div>") := by
  unfold formatFlightCardBody
  iterate 20 apply scL
  exact scTail3Trim _ "</div>\n                    " "<div class=\"datetime\">" _ "</div>" "\n                    <div class=\"datetime\">"

theorem cardHas_depTime_raw (flight : FlightInfo) (a b c d : String) :
    sContains (formatFlightCardBody flight a b c d) ("<div class=\"datetime\">" ++ flight.departure_time ++ "</div>") := by
  unfold formatFlightCardBody
  iterate 18 apply scL
  exact scTail3Trim _ "</div>\n                    " "<div class=\"datetime\">" _ "</div>" "\n                </div>\n                <div class=\"flight-arrow\">→</div>\n                <div class=\"airport-info\">\n                    <div class=\"airport-code\">"

theorem cardHas_duration_raw (flight : FlightInfo) (a b c d : String) :
    sContains (formatFlightCardBody flight a b c d) ("Duration</div>\n                    <div>" ++ orNA flight.duration ++ "</div>") := by
  unfold formatFlightCardBody
  iterate 8 apply scL
  exact scTail3Trim _ "</div>\n                </div>\n            </div>\n            <div class=\"flight-details\">\n                <div class=\"detail-item\">\n                    <div class=\"detail-label\">" "Duration</div>\n                    <div>" _ "</div>" "\n                </div>\n                <div class=\"detail-item\">\n                    <div class=\"detail-label\">Class</div>\n                    <div>"

theorem cardHas_class_raw (flight : FlightInfo) (a b c d : String) :
    sContains (formatFlightCardBody flight a b c d) ("Class</div>\n                    <div>" ++ orNA flight.class_type ++ "</div>") := by
  unfold formatFlightCardBody
  iterate 6 apply scL
  exact scTail3Trim _ "</div>\n                </div>\n                <div class=\"detail-item\">\n                    <div class=\"detail-label\">" "Class</div>\n                    <div>" _ "</div>" "\n                </div>\n                <div class=\"detail-item\">\n                    <div class=\"detail-label\">Aircraft</div>\n                    <div>"

theorem cardHas_aircraft_escaped (flight : FlightInfo) (a b c d : String) :
    sContains (formatFlightCardBody flight a b c d) ("Aircraft</div>\n                    <div>" ++ htmlEscape (orNA flight.aircraft) ++ "</div>") := by
  unfold formatFlightCardBody
  iterate 4 apply scL
  exact scTail3Trim _ "</div>\n                </div>\n                <div class=\"detail-item\">\n                    <div class=\"detail-label\">" "Aircraft</div>\n                    <div>" _ "</div>" "\n                </div>\n                <div class=\"detail-item\">\n                    <div class=\"detail-label\">Baggage</div>\n                    <div>"

theorem cardHas_baggage_raw (flight : FlightInfo) (a b c d : String) :
    sContains (formatFlightCardBody flight a b c d) ("Baggage</div>\n                    <div>" ++ orNA flight.baggage ++ "</div>") := by
  unfold formatFlightCardBody
  iterate 2 apply scL
  exact scTail3Trim _ "</div>\n                </div>\n                <div class=\"detail-item\">\n                    <div class=\"detail-label\">" "Baggage</div>\n                    <div>" _ "</div>" "\n                </div>\n            </div>\n            "

theorem summaryHas_passenger_escaped (booking : BookingInfo) :
    sContains (formatBookingSummary booking) ("Passenger</div>\n                    <div>" ++ htmlEscape (orNA booking.passenger_name) ++ "</div>") := by
  unfold formatBookingSummary
  iterate 6 apply scL
  exact scTail3Trim "" "\n        <div class=\"booking-summary\">\n            <h2>Flight Booking Confirmation</h2>\n            <div class=\"passenger-info\">\n                <div class=\"info-item\">\n                    <div class=\"info-label\">" "Passenger</div>\n                    <div>" _ "</div>" "\n                </div>\n                <div class=\"info-item\">\n                    <div class=\"info-label\">Booking Reference</div>\n                    <div>"

theorem summaryHas_bookingRef_escaped (booking : BookingInfo) :
    sContains (formatBookingSummary booking) ("Booking Reference</div>\n                    <div>" ++ htmlEscape (orNA booking.booking_ref) ++ "</div>") := by
  unfold formatBookingSummary
  iterate 4 apply scL
  exact scTail3Trim _ "</div>\n                </div>\n                <div class=\"info-item\">\n                    <div class=\"info-label\">" "Booking Reference</div>\n                    <div>" _ "</div>" "\n                </div>\n                <div class=\"info-item\">\n                    <div class=\"info-label\">Booking Date</div>\n                    <div>"

theorem summaryHas_date_escaped (booking : BookingInfo) :
    sContains (formatBookingSummary booking) ("Booking Date</div>\n                    <div>" ++ htmlEscape (orNA booking.date) ++ "</div>") := by
  unfold formatBookingSummary
  iterate 2 apply scL
  exact scTail3Trim _ "</div>\n                </div>\n                <div class=\"info-item\">\n                    <div class=\"info-label\">" "Booking Date</div>\n                    <div>" _ "</div>" "\n                </div>\n            </div>\n            "

theorem cardNA_duration (flight : FlightInfo) (a b c d : String) (h : flight.duration = "") :
    sContains (formatFlightCardBody flight a b c d) "Duration</div>\n                    <div>N/A</div>" := by
  unfold formatFlightCardBody
  rw [h]
  iterate 8 apply scL
  exact scTail3Trim _ "</div>\n                </div>\n            </div>\n            <div class=\"flight-details\">\n                <div class=\"detail-item\">\n                    <div class=\"detail-label\">" "Duration</div>\n                    <div>" _ "</div>" "\n                </div>\n                <div class=\"detail-item\">\n                    <div class=\"detail-label\">Class</div>\n                    <div>"

theorem cardNA_class (flight : FlightInfo) (a b c d : String) (h : flight.class_type = "") :
    sContains (formatFlightCardBody flight a b c d) "Class</div>\n                    <div>N/A</div>" := by
  unfold formatFlightCardBody
  rw [h]
  iterate 6 apply scL
  exact scTail3Trim _ "</div>\n                </div>\n                <div class=\"detail-item\">\n                    <div class=\"detail-label\">" "Class</div>\n                    <div>" _ "</div>" "\n                </div>\n                <div class=\"detail-item\">\n                    <div class=\"detail-label\">Aircraft</div>\n                    <div>"

theorem cardNA_aircraft (flight : FlightInfo) (a b c d : String) (h : flight.aircraft = "") :
    sContains (formatFlightCardBody flight a b c d) "Aircraft</div>\n                    <div>N/A</div>" := by
  unfold formatFlightCardBody
  rw [h]
  iterate 4 apply scL
  exact scTail3Trim _ "</div>\n                </div>\n                <div class=\"detail-item\">\n                    <div class=\"detail-label\">" "Aircraft</div>\n                    <div>" _ "</div>" "\n                </div>\n                <div class=\"detail-item\">\n                    <div class=\"detail-label\">Baggage</div>\n                    <div>"

theorem cardNA_baggage (flight : FlightInfo) (a b c d : String) (h : flight.baggage = "") :
    sContains (formatFlightCardBody flight a b c d) "Baggage</div>\n                    <div>N/A</div>" := by
  unfold formatFlightCardBody
  rw [h]
  iterate 2 apply scL
  exact scTail3Trim _ "</div>\n                </div>\n                <div class=\"detail-item\">\n                    <div class=\"detail-label\">" "Baggage</div>\n                    <div>" _ "</div>" "\n                </div>\n            </div>\n            "

theorem summaryNA_passenger (booking : BookingInfo) (h : booking.passenger_name = "") :
    sContains (formatBookingSummary booking) "Passenger</div>\n                    <div>N/A</div>" := by
  unfold formatBookingSummary
  rw [h]
  iterate 6 apply scL
  exact scTail3Trim "" "\n        <div class=\"booking-summary\">\n            <h2>Flight Booking Confirmation</h2>\n            <div class=\"passenger-info\">\n                <div class=\"info-item\">\n                    <div class=\"info-label\">" "Passenger</div>\n                    <div>" _ "</div>" "\n                </div>\n                <div class=\"info-item\">\n                    <div class=\"info-label\">Booking Reference</div>\n                    <div>"

theorem summaryNA_bookingRef (booking : BookingInfo) (h : booking.booking_ref = "") :
    sContains (formatBookingSummary booking) "Booking Reference</div>\n                    <div>N/A</div>" := by
  unfold formatBookingSummary
  rw [h]
  iterate 4 apply scL
  exact scTail3Trim _ "</div>\n                </div>\n                <div class=\"info-item\">\n                    <div class=\"info-label\">" "Booking Reference</div>\n                    <div>" _ "</div>" "\n                </div>\n                <div class=\"info-item\">\n                    <div class=\"info-label\">Booking Date</div>\n                    <div>"

theorem summaryNA_date (booking : BookingInfo) (h : booking.date = "") :
    sContains (formatBookingSummary booking) "Booking Date</div>\n                    <div>N/A</div>" := by
  unfold formatBookingSummary
  rw [h]
  iterate 2 apply scL
  exact scTail3Trim _ "</div>\n                </div>\n                <div class=\"info-item\">\n                    <div class=\"info-label\">" "Booking Date</div>\n                    <div>" _ "</div>" "\n                </div>\n            </div>\n            "


theorem cardHas_depCode_raw (flight : FlightInfo) (a b c d : String) :
    sContains (formatFlightCardBody flight a b c d) ("<div class=\"airport-code\">" ++ a ++ "</div>") := by
  unfold formatFlightCardBody
  iterate 24 apply scL
  exact scTail3Trim _ "\n            </div>\n            <div class=\"flight-route\">\n                <div class=\"airport-info\">\n                    " "<div class=\"airport-code\">" _ "</div>" "\n                    <div class=\"airport-name\">"

theorem cardHas_depCity_escaped (flight : FlightInfo) (a b c d : String) :
    sContains (formatFlightCardBody flight a b c d) ("<div class=\"airport-name\">" ++ htmlEscape b ++ "</div>") := by
  unfold formatFlightCardBody
  iterate 22 apply scL
  exact scTail3Trim _ "</div>\n                    " "<div class=\"airport-name\">" _ "</div>" "\n                    <div class=\"datetime\">"

theorem cardHas_arrCode_raw (flight : FlightInfo) (a b c d : String) :
    sContains (formatFlightCardBody flight a b c d) ("<div class=\"airport-code\">" ++ c ++ "</div>") := by
  unfold formatFlightCardBody
  iterate 16 apply scL
  exact scTail3Trim _ "</div>\n                </div>\n                <div class=\"flight-arrow\">→</div>\n                <div class=\"airport-info\">\n                    " "<div class=\"airport-code\">" _ "</div>" "\n                    <div class=\"airport-name\">"

theorem cardHas_arrCity_escaped (flight : FlightInfo) (a b c d : String) :
    sContains (formatFlightCardBody flight a b c d) ("<div class=\"airport-name\">" ++ htmlEscape d ++ "</div>") := by
  unfold formatFlightCardBody
  iterate 14 apply scL
  exact scTail3Trim _ "</div>\n                    " "<div class=\"airport-name\">" _ "</div>" "\n                    <div class=\"datetime\">"

theorem cardHas_arrDate_raw (flight : FlightInfo) (a b c d : String) :
    sContains (formatFlightCardBody flight a b c d) ("<div class=\"datetime\">" ++ flight.arrival_date ++ "</div>") := by
  unfold formatFlightCardBody
  iterate 12 apply scL
  exact scTail3Trim _ "</div>\n                    " "<div class=\"datetime\">" _ "</div>" "\n                    <div class=\"datetime\">"

theorem cardHas_arrTime_raw (flight : FlightInfo) (a b c d : String) :
    sContains (formatFlightCardBody flight a b c d) ("<div class=\"datetime\">" ++ flight.arrival_time ++ "</div>") := by
  unfold formatFlightCardBody
  iterate 10 apply scL
  exact scTail3Trim _ "</div>\n                    " "<div class=\"datetime\">" _ "</div>" "\n                </div>\n            </div>\n            <div class=\"flight-details\">\n                <div class=\"detail-item\">\n                    <div class=\"detail-label\">Duration</div>\n                    <div>"

theorem cardHas_meal_escaped (flight : FlightInfo) (a b c d : String)
    (h : flight.meal ≠ "") :
    sContains (formatFlightCardBody flight a b c d)
      ("<strong>Meal:</strong> " ++ htmlEscape flight.meal ++ "</div>") := by
  unfold formatFlightCardBody
  rw [if_neg h]
  apply scL
  apply scR2
  exact scTail3Trim "" "<div style=\"padding: 10px 15px; font-size: 9px; border-top: 1px solid #000;\">" "<strong>Meal:</strong> " _ "</div>" ""

theorem summaryHas_group_escaped (booking : BookingInfo) (h : booking.group ≠ "") :
    sContains (formatBookingSummary booking)
      ("Group</div><div>" ++ htmlEscape booking.group ++ "</div></div>") := by
  unfold formatBookingSummary
  rw [if_neg h]
  apply scL
  apply scR2
  exact scTail3Trim "" "<div class=\"info-item\"><div class=\"info-label\">" "Group</div><div>" _ "</div></div>" ""

theorem docTicketHas_ticket_escaped (booking : BookingInfo) :
    sContains (docTicket booking)
      ("<strong>Ticket Number:</strong> " ++ htmlEscape booking.ticket_number ++ "</div>") := by
  unfold docTicket
  iterate 2 apply scL
  exact scTail3Trim "" "\n            <div class=\"ticket-info\">\n                <h3>Ticket Information</h3>\n                <div>" "<strong>Ticket Number:</strong> " _ "</div>" "\n                <div><strong>Passenger:</strong> "

/-! ## Claim C2 -/

set_option maxRecDepth 100000 in
set_option maxHeartbeats 4000000 in
/-- Counterexample to C2 as stated: markup captured into the fare class
reaches the composed document unescaped — user-derived text is *not*
always HTML-escaped before insertion. -/
theorem claim_C2_cex :
    (parseFlights injText).map (fun f => f.class_type) = ["Economy (<I>)"] ∧
    sContains injDoc "<I>" ∧
    ¬ sContains injDoc "&lt;I&gt;" := by
  refine ⟨by decide, by decide, by decide⟩

/-- Claim C2 (amended): in the composed document the derived city
labels, aircraft, meal, passenger name, booking reference, booking date,
group and ticket number are HTML-escaped before insertion, but flight
number, airline, dates, times, duration, class, baggage and the derived
airport codes are inserted verbatim, without escaping. -/
theorem claim_C2_amended (flight : FlightInfo) (n : Nat) (booking : BookingInfo) :
    sContains (formatFlightCard flight n)
      ("Flight " ++ flight.flight_number ++ " - " ++ flight.airline ++ "\n") ∧
    sContains (formatFlightCard flight n)
      ("<div class=\"datetime\">" ++ flight.departure_date ++ "</div>") ∧
    sContains (formatFlightCard flight n)
      ("<div class=\"datetime\">" ++ flight.departure_time ++ "</div>") ∧
    sContains (formatFlightCard flight n)
      ("<div class=\"datetime\">" ++ flight.arrival_date ++ "</div>") ∧
    sContains (formatFlightCard flight n)
      ("<div class=\"datetime\">" ++ flight.arrival_time ++ "</div>") ∧
    sContains (formatFlightCard flight n)
      ("<div class=\"airport-code\">" ++
        (deriveAirport (depCodeOf flight) flight.departure_airport).1 ++ "</div>") ∧
    sContains (formatFlightCard flight n)
      ("<div class=\"airport-name\">" ++
        htmlEscape (deriveAirport (depCodeOf flight) flight.departure_airport).2 ++ "</div>") ∧
    sContains (formatFlightCard flight n)
      ("<div class=\"airport-code\">" ++
        (deriveAirport (arrCodeOf flight) flight.arrival_airport).1 ++ "</div>") ∧
    sContains (formatFlightCard flight n)
      ("<div class=\"airport-name\">" ++
        htmlEscape (deriveAirport (arrCodeOf flight) flight.arrival_airport).2 ++ "</div>") ∧
    sContains (formatFlightCard flight n)
      ("Duration</div>\n                    <div>" ++ orNA flight.duration ++ "</div>") ∧
    sContains (formatFlightCard flight n)
      ("Class</div>\n                    <div>" ++ orNA flight.class_type ++ "</div>") ∧
    sContains (formatFlightCard flight n)
      ("Aircraft</div>\n                    <div>" ++ htmlEscape (orNA flight.aircraft) ++ "</div>") ∧
    sContains (formatFlightCard flight n)
      ("Baggage</div>\n                    <div>" ++ orNA flight.baggage ++ "</div>") ∧
    (flight.meal ≠ "" → sContains (formatFlightCard flight n)
      ("<strong>Meal:</strong> " ++ htmlEscape flight.meal ++ "</div>")) ∧
    sContains (formatBookingSummary booking)
      ("Passenger</div>\n                    <div>" ++ htmlEscape (orNA booking.passenger_name) ++ "</div>") ∧
    sContains (formatBookingSummary booking)
      ("Booking Reference</div>\n                    <div>" ++ htmlEscape (orNA booking.booking_ref) ++ "</div>") ∧
    sContains (formatBookingSummary booking)
      ("Booking Date</div>\n                    <div>" ++ htmlEscape (orNA booking.date) ++ "</div>") ∧
    (booking.group ≠ "" → sContains (formatBookingSummary booking)
      ("Group</div><div>" ++ htmlEscape booking.group ++ "</div></div>")) ∧
    sContains (docTicket booking)
      ("<strong>Ticket Number:</strong> " ++ htmlEscape booking.ticket_number ++ "</div>") := by
  exact ⟨cardHas_header_raw flight _ _ _ _, cardHas_depDate_raw flight _ _ _ _,
    cardHas_depTime_raw flight _ _ _ _, cardHas_arrDate_raw flight _ _ _ _,
    cardHas_arrTime_raw flight _ _ _ _, cardHas_depCode_raw flight _ _ _ _,
    cardHas_depCity_escaped flight _ _ _ _, cardHas_arrCode_raw flight _ _ _ _,
    cardHas_arrCity_escaped flight _ _ _ _, cardHas_duration_raw flight _ _ _ _,
    cardHas_class_raw flight _ _ _ _, cardHas_aircraft_escaped flight _ _ _ _,
    cardHas_baggage_raw flight _ _ _ _, fun h => cardHas_meal_escaped flight _ _ _ _ h,
    summaryHas_passenger_escaped booking, summaryHas_bookingRef_escaped booking,
    summaryHas_date_escaped booking, fun h => summaryHas_group_escaped booking h,
    docTicketHas_ticket_escaped booking⟩

/-- Witness for C2 at records whose meal and group are present. -/
theorem claim_C2_witness :
    sContains (formatFlightCard emptyAirlineFlight 1)
      ("<strong>Meal:</strong> " ++ htmlEscape emptyAirlineFlight.meal ++ "</div>") ∧
    sContains (formatBookingSummary groupedBooking)
      ("Group</div><div>" ++ htmlEscape groupedBooking.group ++ "</div></div>") := by
  obtain ⟨_, _, _, _, _, _, _, _, _, _, _, _, _, w14, _, _, _, w18, _⟩ :=
    claim_C2_amended emptyAirlineFlight 1 groupedBooking
  exact ⟨w14 (by decide), w18 (by decide)⟩

/-! ## Claim C9 -/

set_option maxRecDepth 100000 in
set_option maxHeartbeats 4000000 in
/-- Counterexample to C9 as stated: a validated flight with an empty
airline renders the airline slot as empty text, not as `N/A` — no `N/A`
appears anywhere in its card when all slots with a fallback are filled. -/
theorem claim_C9_cex :
    claimValidFlight emptyAirlineFlight ∧
    emptyAirlineFlight.airline = "" ∧
    sContains (formatFlightCard emptyAirlineFlight 1) "Flight NH123 - \n" ∧
    ¬ sContains (formatFlightCard emptyAirlineFlight 1) "N/A" := by
  refine ⟨by decide, by decide, by decide, by decide⟩

/-- Claim C9 (amended): the slots with an explicit fallback — passenger
name, booking reference, booking date, duration, class, aircraft and
baggage — render empty fields as the literal `N/A`; the flight-header
(flight number and airline), airport-name and datetime slots have no such
fallback. -/
theorem claim_C9_amended (booking : BookingInfo) (flight : FlightInfo) (n : Nat) :
    (booking.passenger_name = "" → sContains (formatBookingSummary booking)
      "Passenger</div>\n                    <div>N/A</div>") ∧
    (booking.booking_ref = "" → sContains (formatBookingSummary booking)
      "Booking Reference</div>\n                    <div>N/A</div>") ∧
    (booking.date = "" → sContains (formatBookingSummary booking)
      "Booking Date</div>\n                    <div>N/A</div>") ∧
    (flight.duration = "" → sContains (formatFlightCard flight n)
      "Duration</div>\n                    <div>N/A</div>") ∧
    (flight.class_type = "" → sContains (formatFlightCard flight n)
      "Class</div>\n                    <div>N/A</div>") ∧
    (flight.aircraft = "" → sContains (formatFlightCard flight n)
      "Aircraft</div>\n                    <div>N/A</div>") ∧
    (flight.baggage = "" → sContains (formatFlightCard flight n)
      "Baggage</div>\n                    <div>N/A</div>") := by
  exact ⟨fun h => summaryNA_passenger booking h, fun h => summaryNA_bookingRef booking h,
    fun h => summaryNA_date booking h, fun h => cardNA_duration flight _ _ _ _ h,
    fun h => cardNA_class flight _ _ _ _ h, fun h => cardNA_aircraft flight _ _ _ _ h,
    fun h => cardNA_baggage flight _ _ _ _ h⟩

/-- Witness for C9 on all-empty records. -/
theorem claim_C9_witness :
    sContains (formatBookingSummary {}) "Passenger</div>\n                    <div>N/A</div>" ∧
    sContains (formatBookingSummary {}) "Booking Date</div>\n                    <div>N/A</div>" ∧
    sContains (formatFlightCard {} 1) "Duration</div>\n                    <div>N/A</div>" ∧
    sContains (formatFlightCard {} 1) "Baggage</div>\n                    <div>N/A</div>" := by
  obtain ⟨w1, _, w3, w4, _, _, w7⟩ := claim_C9_amended {} {} 1
  exact ⟨w1 rfl, w3 rfl, w4 rfl, w7 rfl⟩

/-! ## Claim C3 -/

set_option maxRecDepth 100000 in
set_option maxHeartbeats 4000000 in
/-- Counterexample to C3 as stated: for the spec's end-to-end scenario
the composed document's displayed route codes are not `NRT` and `LAX` —
the parenthesised codes are parsed into the airport fields and the
displayed codes are derived from the city strings instead. -/
theorem claim_C3_cex :
    countOccur scenarioDoc "<div class=\"flight-card\">" = 1 ∧
    ¬ sContains scenarioDoc "<div class=\"airport-code\">NRT</div>" ∧
    ¬ sContains scenarioDoc "<div class=\"airport-code\">LAX</div>" := by
  refine ⟨by decide, by decide, by decide⟩

set_option maxRecDepth 100000 in
set_option maxHeartbeats 4000000 in
/-- Claim C3 (amended): the complete scenario yields exactly one flight
card whose displayed codes are `TOK` and `LOS` (derived from the city
strings `TOKYO` and `LOS ANGELES`), with `NRT` demoted to the departure
airport-name slot, `ANGELES` as the arrival label, and the given dates
and times; the scenario without a departure date yields zero flight cards
but still a document with logo header, booking summary and footer. -/
theorem claim_C3_amended :
    countOccur scenarioDoc "<div class=\"flight-card\">" = 1 ∧
    sContains scenarioDoc
      "<div class=\"airport-info\">\n                    <div class=\"airport-code\">TOK</div>\n                    <div class=\"airport-name\">NRT</div>\n                    <div class=\"datetime\">12 JAN</div>\n                    <div class=\"datetime\">10:00</div>\n                </div>" ∧
    sContains scenarioDoc
      "<div class=\"airport-info\">\n                    <div class=\"airport-code\">LOS</div>\n                    <div class=\"airport-name\">ANGELES</div>\n                    <div class=\"datetime\">12 JAN</div>\n                    <div class=\"datetime\">22:00</div>\n                </div>" ∧
    countOccur scenarioDocNoDate "<div class=\"flight-card\">" = 0 ∧
    sContains scenarioDocNoDate "alt=\"Trip to Japan\"" ∧
    sContains scenarioDocNoDate "class=\"booking-summary\"" ∧
    sContains scenarioDocNoDate "Takanawa Travel K.K." := by
  refine ⟨by decide, by decide, by decide, by decide,
    convertToHtml_contains_logo _ _ _, convertToHtml_contains_summary _ _ _,
    convertToHtml_contains_footer _ _ _⟩

end Eml


